import Mathlib

/-!
Verification of the ReAct chatbot core (jesamkim/aws-strands-agents-chatbot).

Shallow embedding of the control-loop core of the repository:

* `src/utils/kb_search.py`            — `KnowledgeBaseSearcher.search`, `search_multiple_queries`
* `src/agents/react_agent.py`         — `SafetyController`, `IntelligentReActAgent.run`
* `src/agents/observation.py`         — `CitationEnhancedObservationAgent` (quality gate,
                                         citation handling, retry keyword generation)
* `src/enhanced_safety_logic.py`      — legacy `SafetyController`
* `src/CDK/docker_app/agents/orchestration.py` — `OptimizedOrchestrationAgent`
  (this is the class name `src/agents/react_agent.py` imports; the file
  `src/agents/orchestration.py` itself is not in the tree, the CDK twin with the
  identical class name and call signature is used)
* `src/CDK/docker_app/agents/action.py` — `ActionAgent` (same situation)
* `src/CDK/docker_app/agents/react_agent.py` — `ReActAgent._add_citation_references`

Modelling conventions:

* Python strings are Lean `String`s, but all operations (strip, take, lower,
  substring search, replace) are implemented over `String.data` so every
  definition kernel-evaluates; Python `len` on a string is the number of code
  points, i.e. `String.data.length`.
* Relevance scores (Python floats) are modelled as `ℚ`; the threshold literals
  0.5/0.6/0.4/0.2/0.3 of the source are the exact rationals 1/2, 3/5, 2/5, 1/5,
  3/10.
* Python `hash` composed with `str`/slicing is modelled as an arbitrary
  function parameter (`hashFn`), since only equality of hashes matters.
* Calls to the Bedrock model and to the Bedrock retrieve API are oracles
  (`invoke`, `retrieve`) returning `Except String α`; `.error` models a raised
  exception, and Python `try/except` blocks are explicit `match`es on the
  oracle result.
* The long natural-language prompt templates are abstracted into the
  `PromptSpec` constructors carrying exactly the data interpolated into them;
  no claim depends on prompt wording (spec §1 declares it out of scope).
* Python dicts built by the agents are structures whose fields are the keys the
  code reads; a key that the code reads with `.get(k, default)` and that some
  producer may omit is an `Option`.
* `list.sort(key=score, reverse=True)` (a stable sort) is modelled by a stable
  insertion sort; stable sorting is extensionally unique, so this is a faithful
  model of Python's Timsort.
-/

/-! ### Python-style string helpers (kernel-computable) -/

/-- Python `str.strip()`: remove leading and trailing whitespace. -/
def pyStrip (s : String) : String :=
  String.mk (((s.data.dropWhile Char.isWhitespace).reverse.dropWhile Char.isWhitespace).reverse)

/-- Python `s[:n]`: first `n` code points. -/
def pyTake (s : String) (n : Nat) : String :=
  String.mk (s.data.take n)

/-- Python `len(s)`: number of code points. -/
def pyLen (s : String) : Nat :=
  s.data.length

/-- Python `s.lower()` (ASCII case folding; the queries involved are ASCII or
Korean, where lowering is the identity). -/
def pyLower (s : String) : String :=
  String.mk (s.data.map Char.toLower)

/-- Occurrence of `needle` somewhere in the character list. -/
def listHasSub (needle : List Char) : List Char → Bool
  | [] => decide (needle = [])
  | c :: cs => needle.isPrefixOf (c :: cs) || listHasSub needle cs

/-- Python `sub in s` (substring containment). -/
def pyContains (s sub : String) : Bool :=
  listHasSub sub.data s.data

/-- Python `s.startswith(p)`. -/
def pyStartsWith (s p : String) : Bool :=
  p.data.isPrefixOf s.data

/-- Replace every non-overlapping occurrence of `old` by `new`, left to right
(Python `str.replace`); `old` is non-empty at every call site.  Structural
recursion on a fuel bounded by the list length (each step consumes at least
one character), so the definition kernel-evaluates. -/
def listReplaceAllAux (old new : List Char) : Nat → List Char → List Char
  | 0, l => l
  | _ + 1, [] => []
  | fuel + 1, c :: cs =>
    if old ≠ [] ∧ old.isPrefixOf (c :: cs) then
      new ++ listReplaceAllAux old new fuel ((c :: cs).drop old.length)
    else
      c :: listReplaceAllAux old new fuel cs

/-- Python `s.replace(old, new)`. -/
def pyReplace (s old new : String) : String :=
  String.mk (listReplaceAllAux old.data new.data s.data.length s.data)

/-- Python `sep.join(parts)`. -/
def pyJoin (sep : String) : List String → String
  | [] => ""
  | [x] => x
  | x :: xs => x ++ sep ++ pyJoin sep xs

/-- An apostrophe character (kept out of string literals). -/
def aposChar : Char := Char.ofNat 39

/-- Python `str(list_of_strings)`, e.g. `["a","b"]` prints as a bracketed,
comma-separated list with quoted elements.  Used to model `str(keywords)`
inside `hash(str(...))` and f-string interpolation of keyword lists. -/
def pyStrList (l : List String) : String :=
  "[" ++ pyJoin ", " (l.map (fun s => String.mk (aposChar :: s.data ++ [aposChar]))) ++ "]"

/-- Interpretation of a (guaranteed all-digit) string as a number, modelling
Python `int(s)` at the call sites where the regex guarantees digits. -/
def digitsToNat (s : String) : Nat :=
  s.data.foldl (fun acc c => acc * 10 + (c.toNat - 48)) 0

/-! ### The `[n]` marker scanner

Models `re.findall(r'\[(\d+)\]', answer)`: scan left to right; at each `[`,
a maximal digit run directly followed by `]` yields a match (the digit string),
and scanning resumes after the `]`; otherwise scanning advances. -/

def findMarkersAux : Nat → List Char → List String
  | 0, _ => []
  | _ + 1, [] => []
  | fuel + 1, c :: cs =>
    if c = '[' then
      let ds := cs.takeWhile Char.isDigit
      match cs.drop ds.length with
      | ']' :: rest =>
        if ds = [] then findMarkersAux fuel cs
        else String.mk ds :: findMarkersAux fuel rest
      | _ => findMarkersAux fuel cs
    else
      findMarkersAux fuel cs

/-- Python `re.findall(r'\[(\d+)\]', s)` — the digit groups of all `[n]`
markers, in order of occurrence (the fuel, bounded by the length, suffices
since every recursive call shortens the list). -/
def citationsUsed (s : String) : List String :=
  findMarkersAux s.data.length s.data

/-! ### Character-class runs (the deterministic keyword extractors) -/

/-- Hangul syllable block, the `[가-힣]` character class. -/
def isKoreanChar (c : Char) : Bool :=
  0xAC00 ≤ c.toNat ∧ c.toNat ≤ 0xD7A3

/-- ASCII letters, the `[a-zA-Z]` character class. -/
def isAsciiAlphaChar (c : Char) : Bool :=
  (65 ≤ c.toNat ∧ c.toNat ≤ 90) ∨ (97 ≤ c.toNat ∧ c.toNat ≤ 122)

/-- Maximal runs of characters satisfying `p` (models `re.findall` of a
`[class]+` pattern). -/
def runsBy (p : Char → Bool) : List Char → List Char → List String
  | [], acc => if acc = [] then [] else [String.mk acc.reverse]
  | c :: cs, acc =>
    if p c then runsBy p cs (c :: acc)
    else if acc = [] then runsBy p cs []
    else String.mk acc.reverse :: runsBy p cs []

/-- Python `re.findall(r'[가-힣]+', s)`. -/
def koreanWords (s : String) : List String :=
  runsBy isKoreanChar s.data []

/-- Python `re.findall(r'[a-zA-Z]+', s)`. -/
def englishWords (s : String) : List String :=
  runsBy isAsciiAlphaChar s.data []

/-- Python `re.findall(r'[가-힣]*\d+[가-힣]*', s)`: at each position, greedy
optional Hangul run, then at least one digit, then optional Hangul run. -/
def numberWordsAux : Nat → List Char → List String
  | 0, _ => []
  | _, [] => []
  | fuel + 1, cs =>
    let k1 := cs.takeWhile isKoreanChar
    let r1 := cs.drop k1.length
    let ds := r1.takeWhile Char.isDigit
    if ds = [] then
      numberWordsAux fuel (cs.drop 1)
    else
      let r2 := r1.drop ds.length
      let k2 := r2.takeWhile isKoreanChar
      String.mk (k1 ++ ds ++ k2) :: numberWordsAux fuel (r2.drop k2.length)

/-- Python `re.findall(r'[가-힣]*\d+[가-힣]*', s)`. -/
def numberWords (s : String) : List String :=
  numberWordsAux s.data.length s.data

/-! ### Data model -/

/-- One retrieved document chunk (`kb_search.py` result dict).  `score` is the
relevance score, `citation_id` the 1-based id referenced by `[n]` markers,
`query` the keyword that found the result (set by `search_multiple_queries`). -/
structure SearchResult where
  rank : Nat := 0
  citation_id : Nat := 0
  content : String := ""
  score : ℚ := 0
  source : String := ""
  query : String := ""
deriving DecidableEq

/-- One conversation turn (`{"role": ..., "content": ...}`). -/
structure Msg where
  role : String := ""
  content : String := ""
deriving DecidableEq

/-- A citation entry built by the Observation agent (observation.py lines
91-99). -/
structure Citation where
  id : Nat := 0
  content : String := ""
  source : String := ""
  score : ℚ := 0
deriving DecidableEq

/-- Location info of a raw Bedrock retrieval result (the `location` dict). -/
inductive KBLocation where
  | s3 (uri : String)
  | web (url : String)
  | confluence (url : String)
  | other (typ : String)
deriving DecidableEq

/-- A raw result as returned by the Bedrock `retrieve` API. -/
structure RawResult where
  content : String := ""
  score : ℚ := 0
  location : KBLocation := .other "UNKNOWN"
deriving DecidableEq

/-- Agent configuration (`utils/config.py` `AgentConfig`). -/
structure AgentConfig where
  orchestration_model : String := ""
  action_model : String := ""
  observation_model : String := ""
  system_prompt : String := ""
  kb_id : Option String := none
  kb_description : Option String := none
  temperature : ℚ := 0
  max_tokens : Nat := 4000
  max_iterations : Nat := 5
  max_errors : Nat := 3
deriving DecidableEq

/-- `AgentConfig.is_kb_enabled`: `bool(kb_id and kb_id.strip())`. -/
def AgentConfig.is_kb_enabled (c : AgentConfig) : Bool :=
  match c.kb_id with
  | none => false
  | some s => decide (pyStrip s ≠ "")

/-- `AgentConfig.get_max_tokens_for_model`. -/
def AgentConfig.getMaxTokensForModel (c : AgentConfig) (model_id : String) : Nat :=
  if pyContains (pyLower model_id) "claude" then min c.max_tokens 8000
  else if pyContains (pyLower model_id) "nova" then min c.max_tokens 5000
  else c.max_tokens

/-! ### Search client (`src/utils/kb_search.py`) -/

/-- `KnowledgeBaseSearcher._extract_source` (kb_search.py lines 137-162). -/
def extractSource : KBLocation → String
  | .s3 uri => "S3: " ++ uri
  | .web url => "Web: " ++ url
  | .confluence url => "Confluence: " ++ url
  | .other typ => typ ++ ": Unknown Location"

/-- Oracle type for the Bedrock `retrieve` call: knowledge-base id, query and
`numberOfResults` to a list of raw results, or a raised exception
(`ClientError` and generic exceptions are not distinguished: both handlers
return the empty list). -/
abbrev RetrieveOracle := String → String → Nat → Except String (List RawResult)

/-- `KnowledgeBaseSearcher.search` (kb_search.py lines 33-95): empty or blank
kb id yields `[]`; each retrieval result is numbered `rank = citation_id = i+1`
in order; any exception from the transport yields `[]`. -/
def search (retrieve : RetrieveOracle) (kb_id query : String) (max_results : Nat) :
    List SearchResult :=
  if pyStrip kb_id = "" then []
  else
    match retrieve kb_id query max_results with
    | .error _ => []
    | .ok raws =>
      raws.enum.map (fun p =>
        { rank := p.1 + 1
          citation_id := p.1 + 1
          content := p.2.content
          score := p.2.score
          source := extractSource p.2.location })

/-- Stable insertion step for the descending-by-score sort. -/
def insertByScoreDesc (r : SearchResult) : List SearchResult → List SearchResult
  | [] => [r]
  | x :: xs => if x.score ≤ r.score then r :: x :: xs else x :: insertByScoreDesc r xs

/-- Stable sort, descending by score (models
`all_results.sort(key=lambda x: x['score'], reverse=True)`; Python's sort is
stable and stable sorting is extensionally unique). -/
def sortByScoreDesc : List SearchResult → List SearchResult
  | [] => []
  | x :: xs => insertByScoreDesc x (sortByScoreDesc xs)

/-- One step of the deduplicating accumulation in `search_multiple_queries`:
append `r` (tagged with its query) unless the hash of its first 100 content
characters was already seen. -/
def dedupStep (hashFn : String → Int) (query : String)
    (acc : List SearchResult × List Int) (r : SearchResult) :
    List SearchResult × List Int :=
  let key := hashFn (pyTake r.content 100)
  if key ∈ acc.2 then acc
  else (acc.1 ++ [{ r with query := query }], acc.2 ++ [key])

/-- `KnowledgeBaseSearcher.search_multiple_queries` (kb_search.py lines
97-135): run `search` per non-blank query, deduplicate by the hash of the
first 100 content characters, tag each kept result with its query, sort
descending by score and keep the top `KB_DEFAULT_CONFIG["max_results"] = 5`. -/
def searchMultipleQueries (retrieve : RetrieveOracle) (hashFn : String → Int)
    (kb_id : String) (queries : List String) (max_results_per_query : Nat) :
    List SearchResult :=
  let collected := queries.foldl
    (fun acc query =>
      if pyStrip query = "" then acc
      else (search retrieve kb_id query max_results_per_query).foldl
        (dedupStep hashFn query) acc)
    ([], [])
  (sortByScoreDesc collected.1).take 5

/-! ### Safety controllers

`SafetyController` state (react_agent.py lines 16-21 and
enhanced_safety_logic.py lines 8-13 have identical constructors). -/

structure SafetyState where
  max_iterations : Nat := 5
  used_keywords : Finset String := ∅
  repeated_actions : List String := []
  error_count : Nat := 0
  max_errors : Nat := 3
deriving DecidableEq

/-- `SafetyController._get_action_signature`:
`f"{action_result.get('type', 'unknown')}_{hash(str(action_result.get('search_keywords', [])))}"`.
`hashFn` models Python `hash` on the `str` of the keyword list. -/
def actionSignature (hashFn : String → Int) (typ : Option String)
    (search_keywords : List String) : String :=
  typ.getD "unknown" ++ "_" ++ toString (hashFn (pyStrList search_keywords))

/-- Converged `SafetyController.should_continue` (src/agents/react_agent.py
lines 23-42).  Input is the dict the caller passes (its `type` key, usually
absent, and its `search_keywords` list); output is the (continue?, reason)
pair together with the mutated state. -/
def SafetyState.shouldContinue (hashFn : String → Int) (s : SafetyState)
    (current_iteration : Nat) (typ : Option String) (search_keywords : List String) :
    (Bool × String) × SafetyState :=
  if s.max_iterations ≤ current_iteration then
    ((false, "최대 반복 횟수(" ++ toString s.max_iterations ++ ")에 도달했습니다."), s)
  else if s.max_errors ≤ s.error_count then
    ((false, "연속 에러가 " ++ toString s.max_errors ++ "회 발생했습니다."), s)
  else
    let kws := search_keywords.toFinset
    if search_keywords ≠ [] ∧ kws.Nonempty ∧ kws ⊆ s.used_keywords ∧ 2 < kws.card then
      ((false, "동일한 검색 키워드가 반복되어 루프를 중단합니다."), s)
    else
      let s1 := if search_keywords ≠ [] then
          { s with used_keywords := s.used_keywords ∪ kws } else s
      let sig := actionSignature hashFn typ search_keywords
      if 2 ≤ s1.repeated_actions.count sig then
        ((false, "동일한 액션이 3회 반복되어 루프를 중단합니다."), s1)
      else
        ((true, ""), { s1 with repeated_actions := s1.repeated_actions ++ [sig] })

/-- Legacy `SafetyController.should_continue`
(src/enhanced_safety_logic.py lines 15-43): same first two rules, then the
signature-repetition check (any previous occurrence stops), then the
keyword-subset check without a cardinality threshold. -/
def SafetyState.shouldContinueLegacy (hashFn : String → Int) (s : SafetyState)
    (current_iteration : Nat) (typ : Option String) (search_keywords : List String) :
    (Bool × String) × SafetyState :=
  if s.max_iterations ≤ current_iteration then
    ((false, "최대 반복 횟수(" ++ toString s.max_iterations ++ ")에 도달했습니다."), s)
  else if s.max_errors ≤ s.error_count then
    ((false, "연속 에러가 " ++ toString s.max_errors ++ "회 발생했습니다."), s)
  else
    let sig := actionSignature hashFn typ search_keywords
    if sig ∈ s.repeated_actions then
      ((false, "동일한 액션이 반복되어 루프를 중단합니다."), s)
    else
      let kws := search_keywords.toFinset
      if search_keywords ≠ [] ∧ kws ⊆ s.used_keywords then
        ((false, "동일한 검색 키워드가 반복되어 루프를 중단합니다."), s)
      else
        let s1 := if search_keywords ≠ [] then
            { s with used_keywords := s.used_keywords ∪ kws } else s
        ((true, ""), { s1 with repeated_actions := s1.repeated_actions ++ [sig] })

/-- `SafetyController.record_error` / `reset_error_count`, as driven by the
loop (react_agent.py lines 109-112, 133-136): advance the consecutive error
counter on an error step, reset it on a non-error step. -/
def recordOrReset (isError : Bool) (s : SafetyState) : SafetyState :=
  if isError then { s with error_count := s.error_count + 1 }
  else { s with error_count := 0 }

/-- Claim-side rendering of the C6 rule list, written from the claim text:
rules checked in order with first match winning; rule 3 stops on a non-empty
keyword set of cardinality above 2 that is contained in the cumulative used
set and otherwise merges the keywords; rule 4 stops on a signature already
seen at least twice and otherwise appends it. -/
def safetyRulesSpec (hashFn : String → Int) (s : SafetyState)
    (iteration : Nat) (typ : Option String) (search_keywords : List String) :
    (Bool × String) × SafetyState :=
  if iteration ≥ s.max_iterations then
    ((false, "최대 반복 횟수(" ++ toString s.max_iterations ++ ")에 도달했습니다."), s)
  else if s.error_count ≥ s.max_errors then
    ((false, "연속 에러가 " ++ toString s.max_errors ++ "회 발생했습니다."), s)
  else
    let K := search_keywords.toFinset
    if K.Nonempty ∧ 2 < K.card ∧ K ⊆ s.used_keywords then
      ((false, "동일한 검색 키워드가 반복되어 루프를 중단합니다."), s)
    else
      let s1 := { s with used_keywords := s.used_keywords ∪ K }
      let sig := actionSignature hashFn typ search_keywords
      if 2 ≤ s1.repeated_actions.count sig then
        ((false, "동일한 액션이 3회 반복되어 루프를 중단합니다."), s1)
      else
        ((true, ""), { s1 with repeated_actions := s1.repeated_actions ++ [sig] })

/-! ### Step records and loop context -/

/-- Parsed result of an Orchestration step (the `parsed_result` dict built by
`OptimizedOrchestrationAgent`). -/
structure OrchParsed where
  needs_kb_search : Bool := false
  search_keywords : List String := []
  intent : String := ""
  confidence : ℚ := 0
  rule_applied : String := ""
  reasoning : String := ""
  context_applied : Bool := false
  requires_conversation_context : Bool := false
  error : Bool := false
deriving DecidableEq

/-- An Orchestration step record (dict with `"type": "Orchestration"`; the
type tag is the `Step` constructor). -/
structure OrchStep where
  model : String := ""
  content : String := ""
  parsed_result : OrchParsed := {}
  error : Bool := false
deriving DecidableEq

/-- Parsed result of an Action step.  `typ` models a possible `"type"` key of
the dict (the CDK `ActionAgent` never sets one, so the safety signature falls
back to `"unknown"`). -/
structure ActionParsed where
  typ : Option String := none
  search_type : String := ""
  search_keywords : List String := []
  results_count : Nat := 0
  intent : String := ""
  error : Bool := false
  error_message : String := ""
  error_reason : String := ""
deriving DecidableEq

/-- An Action step record. -/
structure ActionStep where
  model : String := ""
  content : String := ""
  parsed_result : ActionParsed := {}
  search_results : List SearchResult := []
  search_keywords : List String := []
  error : Bool := false
deriving DecidableEq

/-- Parsed result of an Observation step.  `final_answer` and `part_answer`
(the dict key `"partial_answer"`) are `Option`s because the loop reads them
with `.get(key, default)` and distinguishes a missing key from an empty
string. -/
structure ObsParsed where
  analysis : String := ""
  is_final_answer : Bool := false
  final_answer : Option String := none
  needs_retry : Bool := false
  retry_keywords : List String := []
  retry_reason : Option String := none
  part_answer : Option String := none
  citations : List Citation := []
  search_results_used : Nat := 0
  iteration_count : Nat := 0
deriving DecidableEq

/-- An Observation step record. -/
structure ObsStep where
  model : String := ""
  content : String := ""
  parsed_result : ObsParsed := {}
  search_results_count : Nat := 0
  context_applied : Bool := false
  citations : List Citation := []
  quality_score : ℚ := 0
  error : Bool := false
deriving DecidableEq

/-- A step record of the trace; the constructor is the dict's `"type"` tag. -/
inductive Step where
  | orchestration (s : OrchStep)
  | action (s : ActionStep)
  | observation (s : ObsStep)
deriving DecidableEq

/-- The mutable per-turn `context` dict of `IntelligentReActAgent.run`:
`retry_keywords`/`retry_reason` are written by the loop on a retry, and
`previous_steps` is written before each Observation call. -/
structure Ctx where
  original_query : String := ""
  conversation_history : List Msg := []
  kb_id : Option String := none
  kb_description : Option String := none
  retry_keywords : List String := []
  retry_reason : Option String := none
  previous_steps : List Step := []
deriving DecidableEq

/-- Abstraction of the natural-language prompt templates: each constructor is
one template of the source, carrying exactly the data interpolated into it
(spec §1 places prompt wording out of scope). -/
inductive PromptSpec where
  | keywordGen (query kb_info context_info : String)
  | citationFinalIter (previous_context query intent results_text : String) (iteration : Nat)
  | citationFinal (previous_context query intent results_text : String)
  | contextContinuation (previous_context query : String)
  | contextGeneral (previous_context query intent : String)
  | generalAnswer (query : String)
  | searchFailure (query : String) (keywords : List String)
deriving DecidableEq

/-- Arguments of one `BedrockClient.invoke_model` call. -/
structure ModelCall where
  model_id : String := ""
  prompt : PromptSpec := .generalAnswer ""
  temperature : ℚ := 0
  max_tokens : Nat := 0
  system_prompt : Option String := none
deriving DecidableEq

/-- Oracle type for the model client; `.error` models a raised exception. -/
abbrev InvokeOracle := ModelCall → Except String String

/-! ### Orchestration agent (`OptimizedOrchestrationAgent`,
src/CDK/docker_app/agents/orchestration.py; the class
src/agents/react_agent.py imports under this exact name) -/

/-- The continuation connective list of
`OptimizedOrchestrationAgent._is_conversation_continuation`. -/
def continuationPatterns : List String :=
  ["다음은", "그럼", "그러면", "또는", "아니면", "그리고", "그런데",
   "그래서", "그렇다면", "그럼에도", "하지만", "그런데도", "그래도",
   "계속", "이어서", "추가로", "더", "또", "그 외에", "다른",
   "next", "then", "also", "more", "continue", "what about", "how about"]

/-- The bare-interrogative starters of `_is_conversation_continuation`. -/
def questionStarters : List String :=
  ["뭐", "무엇", "어떤", "어떻게", "왜", "언제", "어디", "누가", "얼마"]

/-- `OptimizedOrchestrationAgent._is_conversation_continuation`
(orchestration.py lines 168-197). -/
def isConversationContinuation (query : String) (history : List Msg) : Bool :=
  if history = [] then false
  else
    let query_lower := pyStrip (pyLower query)
    if pyLen (pyStrip query) ≤ 10 ∧ continuationPatterns.any (fun p => pyContains query_lower p) then
      true
    else if pyLen (pyStrip query) ≤ 20 ∧ history ≠ [] ∧
        questionStarters.any (fun st => pyStartsWith (pyStrip query) st) then
      true
    else false

/-- `OptimizedOrchestrationAgent._is_simple_greeting`
(orchestration.py lines 199-203). -/
def isSimpleGreeting (query : String) : Bool :=
  let greetings : List String := ["안녕", "hello", "hi", "안녕하세요", "안녕하십니까"]
  greetings.any (fun g => pyContains (pyStrip (pyLower query)) g) ∧ pyLen (pyStrip query) < 20

/-- Minimal parser for a JSON array of strings, modelling
`json.loads(json_match.group())` restricted to the flat string arrays the
keyword prompt requests; any other JSON shape is a parse failure (Python would
also fail downstream on non-string keywords).  `parseArrayTail` consumes
`"s" (, "s")* ]` after the opening bracket. -/
def parseArrayTail : Nat → List Char → Option (List String)
  | 0, _ => none
  | fuel + 1, cs =>
    match cs.dropWhile Char.isWhitespace with
    | ']' :: rest => if rest.dropWhile Char.isWhitespace = [] then some [] else none
    | '"' :: rest =>
      let item := rest.takeWhile (fun c => c ≠ '"')
      match rest.drop item.length with
      | '"' :: rest2 =>
        match rest2.dropWhile Char.isWhitespace with
        | ',' :: rest3 =>
          (parseArrayTail fuel rest3).map (fun items => String.mk item :: items)
        | ']' :: rest3 =>
          if rest3.dropWhile Char.isWhitespace = [] then some [String.mk item] else none
        | _ => none
      | _ => none
    | _ => none

/-- Parse a complete `[ "a", "b", ... ]` string (no escape sequences; the
keyword prompt asks for plain Korean keywords). -/
def parseStringArray (s : String) : Option (List String) :=
  match s.data.dropWhile Char.isWhitespace with
  | '[' :: rest => parseArrayTail (rest.length + 1) rest
  | _ => none

/-- Model of `re.search(r'\[.*?\]', response)`: the first substring starting
at a `[` and ending at the next `]` with no newline in between (`.` does not
match a newline). -/
def findBracketSpanAux : Nat → List Char → Option (List Char)
  | 0, _ => none
  | _ + 1, [] => none
  | fuel + 1, c :: cs =>
    if c = '[' then
      let body := cs.takeWhile (fun d => d ≠ ']' ∧ d ≠ '\n')
      match cs.drop body.length with
      | ']' :: _ => some ('[' :: body ++ [']'])
      | _ => findBracketSpanAux fuel cs
    else findBracketSpanAux fuel cs

/-- First `[...]` span of a string, if any. -/
def findBracketSpan (s : String) : Option (List Char) :=
  findBracketSpanAux (s.data.length + 1) s.data

/-- `OptimizedOrchestrationAgent._extract_keywords_fallback`
(orchestration.py lines 143-166): Korean runs, ASCII-letter runs and
digit-bearing runs, deduplicated preserving order, dropping tokens shorter
than 2, at most 3; else the first 20 characters of the query. -/
def extractKeywordsFallback (query : String) : List String :=
  let all_keywords := koreanWords query ++ englishWords query ++ numberWords query
  let unique_keywords := all_keywords.foldl
    (fun acc k => if 2 ≤ pyLen k ∧ k ∉ acc then acc ++ [k] else acc) []
  if unique_keywords ≠ [] then unique_keywords.take 3 else [pyTake query 20]

/-- `OptimizedOrchestrationAgent._generate_keywords_fast`
(orchestration.py lines 91-141): one model call with a minimal prompt; parse
a JSON array out of the reply; on any failure (exception, no bracket span,
bad JSON, empty list) fall back to the deterministic extractor. -/
def generateKeywordsFast (invoke : InvokeOracle) (cfg : AgentConfig)
    (query kb_description : String) (history : List Msg) : List String :=
  let last_user_msg :=
    ((history.reverse.find? (fun m => m.role = "user")).map
      (fun m => pyTake m.content 100)).getD ""
  let context_info := if last_user_msg ≠ "" then "Previous: " ++ last_user_msg else ""
  let kb_info := if kb_description ≠ "" then "KB: " ++ pyTake kb_description 100
    else "KB: General knowledge base"
  match invoke
      { model_id := cfg.orchestration_model
        prompt := .keywordGen query kb_info context_info
        temperature := 0
        max_tokens := 100
        system_prompt := some "You are a keyword extraction expert. Generate precise Korean search keywords in JSON array format." } with
  | .error _ => extractKeywordsFallback query
  | .ok response =>
    match findBracketSpan response with
    | none => extractKeywordsFallback query
    | some span =>
      match parseStringArray (String.mk span) with
      | some keywords =>
        if keywords.length > 0 then keywords.take 3 else extractKeywordsFallback query
      | none => extractKeywordsFallback query

/-- `OptimizedOrchestrationAgent._create_direct_answer_result`
(orchestration.py lines 205-222). -/
def createDirectAnswerResult (cfg : AgentConfig) (_query reason : String) : OrchStep :=
  { model := cfg.orchestration_model
    content := "Direct answer required. Reason: " ++ reason
    parsed_result :=
      { needs_kb_search := false
        search_keywords := []
        intent := "Direct answer with context"
        confidence := 9/10
        rule_applied := "direct_answer"
        reasoning := reason
        context_applied := true
        requires_conversation_context := true
        error := false }
    error := false }

/-- `OptimizedOrchestrationAgent.orchestrate` (orchestration.py lines 27-89):
conversation continuation, then greeting, then missing index id all yield a
direct-answer result; with an index id, pending retry keywords are reused
verbatim, otherwise keywords are generated.  The body's only fallible call
(`_generate_keywords_fast`) catches internally, so the outer `except` clause
is unreachable in this model. -/
def orchestrate (invoke : InvokeOracle) (cfg : AgentConfig) (context : Ctx) : OrchStep :=
  let original_query := context.original_query
  let kb_id := context.kb_id.getD ""
  let kb_description := context.kb_description.getD ""
  let conversation_history := context.conversation_history
  if isConversationContinuation original_query conversation_history then
    createDirectAnswerResult cfg original_query "Conversation continuation"
  else if isSimpleGreeting original_query then
    createDirectAnswerResult cfg original_query "Simple greeting"
  else if kb_id = "" then
    createDirectAnswerResult cfg original_query "No KB_ID - direct answer with context"
  else if context.retry_keywords ≠ [] then
    { model := cfg.orchestration_model
      content := "KB retry search with keywords: " ++ pyStrList context.retry_keywords
      parsed_result :=
        { needs_kb_search := true
          search_keywords := context.retry_keywords
          intent := "KB retry search"
          confidence := 9/10
          rule_applied := "kb_retry"
          reasoning := "Retry with different keywords: " ++
            (context.retry_reason.getD "Previous search insufficient")
          context_applied := conversation_history.length > 0 }
      error := false }
  else
    let keywords := generateKeywordsFast invoke cfg original_query kb_description conversation_history
    { model := cfg.orchestration_model
      content := "KB search with keywords: " ++ pyStrList keywords
      parsed_result :=
        { needs_kb_search := true
          search_keywords := keywords
          intent := "KB search priority"
          confidence := 19/20
          rule_applied := "kb_priority"
          reasoning := "KB_ID exists - KB search priority"
          context_applied := conversation_history.length > 0 }
      error := false }

/-! ### Action agent (`ActionAgent`, src/CDK/docker_app/agents/action.py;
the class src/agents/react_agent.py imports under this name) -/

/-- Display text of `_perform_kb_search` (action.py lines 101-129).  No claim
reads this text; the numeric `.3f` float formatting and the Python dict/brace
rendering of the per-keyword summary are simplified to plain joins. -/
def actionSearchContent (search_results : List SearchResult)
    (search_keywords : List String) : String :=
  if search_results ≠ [] then
    "✅ Knowledge Base 검색 완료: " ++ toString search_results.length ++ "개 관련 문서 발견"
      ++ "\n📊 검색 키워드별 결과: "
      ++ pyJoin ", " ((search_results.map (fun r => r.query)).eraseDups)
      ++ "\n🎯 상위 3개 결과 점수: "
      ++ toString ((search_results.take 3).length)
      ++ "\n📚 Citations: "
      ++ pyJoin ", " (search_results.map (fun r => "[" ++ toString r.citation_id ++ "]"))
      ++ "\n\n📄 검색 결과 미리보기:"
      ++ String.join ((search_results.take 2).enum.map (fun p =>
          "\n[" ++ toString (p.1 + 1) ++ "] " ++ pyTake p.2.content 100 ++ "..."))
  else
    "❌ Knowledge Base 검색 완료: 관련 문서를 찾지 못했습니다"
      ++ "\n🔍 검색한 키워드: " ++ pyStrList search_keywords
      ++ "\n💡 다른 키워드로 재시도를 권장합니다."

/-- `ActionAgent._create_error_response` (action.py lines 207-222). -/
def actionErrorResponse (cfg : AgentConfig) (error_msg : String)
    (search_keywords : List String) : ActionStep :=
  { model := cfg.action_model
    content := "❌ " ++ error_msg
    parsed_result :=
      { search_type := "error"
        search_keywords := search_keywords
        error := true
        error_message := error_msg }
    search_results := []
    search_keywords := search_keywords
    error := true }

/-- `ActionAgent._perform_kb_search` (action.py lines 79-149): multi-keyword
search with `max_results_per_query = 2`; exceptions inside the search call are
converted to an error response (`search` itself already catches transport
errors, so the surviving failure mode is an uninitialised searcher). -/
def performKbSearch (retrieve : RetrieveOracle) (hashFn : String → Int)
    (cfg : AgentConfig) (search_keywords : List String) : ActionStep :=
  if ¬ cfg.is_kb_enabled then
    actionErrorResponse cfg "KB 검색기가 초기화되지 않았습니다." search_keywords
  else
    let search_results :=
      searchMultipleQueries retrieve hashFn (cfg.kb_id.getD "") search_keywords 2
    { model := cfg.action_model
      content := actionSearchContent search_results search_keywords
      parsed_result :=
        { search_type := "knowledge_base"
          search_keywords := search_keywords
          results_count := search_results.length
          error := false }
      search_results := search_results
      search_keywords := search_keywords
      error := false }

/-- `ActionAgent._perform_direct_response` (action.py lines 151-178). -/
def performDirectResponse (cfg : AgentConfig) (orch : OrchStep) : ActionStep :=
  let intent := orch.parsed_result.intent
  let content :=
    if pyContains intent "인사" ∨ pyContains intent "대화" then
      "💬 일반적인 인사말로 판단되어 Knowledge Base 검색을 수행하지 않습니다."
    else if pyContains intent "계산" ∨ pyContains intent "수학" then
      "🔢 수학 계산 문제로 판단되어 Knowledge Base 검색을 수행하지 않습니다."
    else if pyContains intent "무지개" ∨ pyContains intent "색상" then
      "🌈 일반 상식 질문으로 판단되어 Knowledge Base 검색을 수행하지 않습니다."
    else
      "ℹ️ " ++ aposChar.toString ++ intent ++ aposChar.toString ++
        " 의도로 판단되어 Knowledge Base 검색이 필요하지 않습니다."
  { model := cfg.action_model
    content := content
    parsed_result := { search_type := "direct_response", intent := intent, error := false }
    search_results := []
    search_keywords := []
    error := false }

/-- `ActionAgent._handle_no_search_case` (action.py lines 180-205). -/
def handleNoSearchCase (cfg : AgentConfig) (search_keywords : List String) : ActionStep :=
  let content :=
    if ¬ cfg.is_kb_enabled then
      "⚠️ Knowledge Base가 설정되지 않아 검색을 수행할 수 없습니다." ++
        "\n💡 KB ID를 설정하면 더 정확한 답변을 제공할 수 있습니다."
    else if search_keywords = [] then
      "⚠️ 검색 키워드가 생성되지 않아 Knowledge Base 검색을 수행할 수 없습니다." ++
        "\n💡 더 구체적인 질문을 해주시면 도움이 됩니다."
    else
      "⚠️ 알 수 없는 이유로 Knowledge Base 검색을 수행할 수 없습니다." ++
        "\n🔍 시도한 키워드: " ++ pyStrList search_keywords
  { model := cfg.action_model
    content := content
    parsed_result :=
      { search_type := "no_search"
        search_keywords := search_keywords
        error := true
        error_reason := "KB 검색 불가능" }
    search_results := []
    search_keywords := search_keywords
    error := true }

/-- `ActionAgent.act` (action.py lines 31-77): locate the latest
Orchestration step; search when requested and possible, answer directly when
not requested, and report an explicit error otherwise. -/
def act (retrieve : RetrieveOracle) (hashFn : String → Int) (cfg : AgentConfig)
    (_context : Ctx) (previous_steps : List Step) : ActionStep :=
  let orchestration_result := previous_steps.reverse.findSome? (fun s =>
    match s with
    | .orchestration o => some o
    | _ => none)
  match orchestration_result with
  | none => actionErrorResponse cfg "Orchestration 결과를 찾을 수 없습니다." []
  | some orch =>
    let needs_kb_search := orch.parsed_result.needs_kb_search
    let search_keywords := orch.parsed_result.search_keywords
    if needs_kb_search ∧ cfg.is_kb_enabled ∧ search_keywords ≠ [] then
      performKbSearch retrieve hashFn cfg search_keywords
    else if ¬ needs_kb_search then
      performDirectResponse cfg orch
    else
      handleNoSearchCase cfg search_keywords

/-! ### Observation agent (`CitationEnhancedObservationAgent`,
src/agents/observation.py) -/

/-- Result of `_assess_search_quality`.  The `.3f`-formatted score
interpolations of the reason strings are elided (no caller reads them). -/
structure QualityAssessment where
  needs_retry : Bool := false
  reason : String := ""
  score : ℚ := 0
deriving DecidableEq

/-- The `min_avg_score` threshold of `_assess_search_quality` (observation.py
lines 560-575): 0.5 up to iteration 2, 0.4 up to iteration 4, 0.2 beyond. -/
def minAvgScore (iteration : Nat) : ℚ :=
  if iteration ≤ 2 then 1/2 else if iteration ≤ 4 then 2/5 else 1/5

/-- The `min_max_score` threshold: 0.6 / 0.5 / 0.3. -/
def minMaxScore (iteration : Nat) : ℚ :=
  if iteration ≤ 2 then 3/5 else if iteration ≤ 4 then 1/2 else 3/10

/-- The `min_content_length` threshold: 200 / 150 / 50. -/
def minContentLength (iteration : Nat) : Nat :=
  if iteration ≤ 2 then 200 else if iteration ≤ 4 then 150 else 50

/-- `avg_score` of `_assess_search_quality` (line 578). -/
def avgScore (results : List SearchResult) : ℚ :=
  (results.map (fun r => r.score)).sum / results.length

/-- `max_score` of `_assess_search_quality` (line 579; Python `max` over a
non-empty list, i.e. a fold of `max` seeded with the first element). -/
def maxScore : List SearchResult → ℚ
  | [] => 0
  | r0 :: rest => rest.foldl (fun m r => max m r.score) r0.score

/-- `total_content_length` of `_assess_search_quality` (line 580). -/
def totalContentLength (results : List SearchResult) : Nat :=
  (results.map (fun r => pyLen r.content)).sum

/-- `CitationEnhancedObservationAgent._assess_search_quality`
(observation.py lines 551-621): iteration-adaptive thresholds, with every
retry condition additionally guarded by `iteration < 5` (the three
per-iteration threshold assignments of the source are factored into the
`min*` functions above with identical values). -/
def assessSearchQuality (search_results : List SearchResult) (_query : String)
    (_keywords : List String) (iteration : Nat) : QualityAssessment :=
  match search_results with
  | [] =>
    { needs_retry := decide (iteration < 5), reason := "검색 결과 없음", score := 0 }
  | r0 :: rest =>
    let results := r0 :: rest
    if results.length = 1 ∧ r0.score < minMaxScore iteration ∧ iteration < 5 then
      { needs_retry := true
        reason := "검색 결과 1개, 관련성 낮음 (" ++ toString iteration ++ "회차)"
        score := r0.score }
    else if avgScore results < minAvgScore iteration ∧ iteration < 5 then
      { needs_retry := true
        reason := "평균 관련성 점수 낮음 (" ++ toString iteration ++ "회차)"
        score := avgScore results }
    else if maxScore results < minMaxScore iteration ∧ iteration < 5 then
      { needs_retry := true
        reason := "최고 관련성 점수 낮음 (" ++ toString iteration ++ "회차)"
        score := maxScore results }
    else if totalContentLength results < minContentLength iteration ∧ iteration < 5 then
      { needs_retry := true
        reason := "검색 결과 내용 부족 (" ++ toString (totalContentLength results) ++ "자, " ++
          toString iteration ++ "회차)"
        score := avgScore results }
    else
      { needs_retry := false
        reason := "검색 결과 품질 " ++ (if iteration < 5 then "양호" else "최종 반복") ++
          " (" ++ toString iteration ++ "회차)"
        score := avgScore results }

/-- Claim-side quality gate of C2: evidence is claimed sufficient exactly when
average score, maximum score and total content length all meet the
iteration-adaptive thresholds — including, per the claim, at iterations from
5 on. -/
def claimGateSufficient (results : List SearchResult) (iteration : Nat) : Prop :=
  minAvgScore iteration ≤ avgScore results ∧
  minMaxScore iteration ≤ maxScore results ∧
  minContentLength iteration ≤ totalContentLength results

/-- The synonym table of `_generate_retry_keywords` (observation.py lines
636-644), in dict insertion order. -/
def synonymMap : List (String × List String) :=
  [("규정", ["정책", "지침", "기준", "절차"]),
   ("지원", ["혜택", "보조", "도움", "제공"]),
   ("전결", ["승인", "결재", "허가", "인가"]),
   ("치료", ["의료", "진료", "처치", "케어"]),
   ("시술", ["수술", "처치", "의료행위", "진료"]),
   ("복리후생", ["직원혜택", "근로자혜택", "복지", "후생"]),
   ("회사", ["기업", "조직", "직장", "사업장"])]

/-- One keyword's synonym substitution (observation.py lines 647-655): the
first table entry whose key occurs in the keyword is tried; the first synonym
whose substitution is new (neither collected nor previous) is appended. -/
def synonymReplacement (previous : List String) (new_keywords : List String)
    (keyword : String) : List String :=
  match synonymMap.find? (fun p => pyContains keyword p.1) with
  | none => new_keywords
  | some (word, synonyms) =>
    match synonyms.find? (fun syn =>
        let nk := pyReplace keyword word syn
        nk ∉ new_keywords ∧ nk ∉ previous) with
    | none => new_keywords
    | some syn => new_keywords ++ [pyReplace keyword word syn]

/-- `CitationEnhancedObservationAgent._generate_retry_keywords`
(observation.py lines 623-674): synonym substitutions of the previous
keywords, then consecutive Korean-word pairs of the query, then single Korean
words not occurring in `str(previous_keywords)`; at most 3, with the first 20
characters of the query as last resort. -/
def generateRetryKeywords (query : String) (previous_keywords : List String)
    (_reason : String) : List String :=
  let korean_words := koreanWords query
  let new1 := previous_keywords.foldl (synonymReplacement previous_keywords) []
  let pairs := (korean_words.zip korean_words.tail).map (fun p => p.1 ++ " " ++ p.2)
  let new2 := pairs.foldl
    (fun acc c => if c ∉ acc ∧ c ∉ previous_keywords then acc ++ [c] else acc) new1
  let new3 := korean_words.foldl
    (fun acc w =>
      if 2 ≤ pyLen w ∧ w ∉ acc ∧ ¬ pyContains (pyStrList previous_keywords) w then
        acc ++ [w]
      else acc)
    new2
  if new3 ≠ [] then new3.take 3 else [pyTake query 20]

/-- `CitationEnhancedObservationAgent._ensure_citations_in_response`
(observation.py lines 301-322): when the model text lacks `[n]` markers or a
references section, a references block listing all collected citations is
appended (only when the references section is missing). -/
def ensureCitationsInResponse (response : String) (citations : List Citation) : String :=
  let has_citations := citationsUsed response ≠ []
  let has_references := pyContains response "참고 자료" ∨ pyContains response "References"
    ∨ pyContains response "출처"
  if ¬ has_citations ∨ ¬ has_references then
    if ¬ has_references then
      response ++ "\n\n**참고 자료:**\n" ++
        String.join (citations.map (fun c => "[" ++ toString c.id ++ "] " ++ c.source ++ "\n"))
    else response
  else response

/-- Context information extracted from the latest Orchestration step
(`_extract_context_info`, observation.py lines 338-350). -/
structure ContextInfo where
  has_context : Bool := false
  intent : String := ""
  keywords : List String := []
  confidence : ℚ := 0
deriving DecidableEq

/-- `CitationEnhancedObservationAgent._extract_context_info`. -/
def extractContextInfo : Option OrchStep → ContextInfo
  | none => { has_context := false }
  | some o =>
    { has_context := o.parsed_result.context_applied
      intent := o.parsed_result.intent
      keywords := o.parsed_result.search_keywords
      confidence := o.parsed_result.confidence }

/-- Default system prompt (`self.config.system_prompt or "..."`). -/
def basePrompt (cfg : AgentConfig) : String :=
  if cfg.system_prompt = "" then "당신은 도움이 되는 AI 어시스턴트입니다." else cfg.system_prompt

/-- `_get_citation_system_prompt` (observation.py lines 324-336). -/
def citationSystemPrompt (cfg : AgentConfig) : String :=
  basePrompt cfg ++
  "\n\n당신은 Knowledge Base 검색 결과를 바탕으로 정확한 답변을 생성하는 전문가입니다.\n\n**Citation 규칙:**\n1. 검색 결과의 정보를 사용할 때는 반드시 [1], [2] 형태로 출처를 표시하세요\n2. 답변 마지막에 \"**참고 자료:**\" 섹션을 포함하세요\n3. 검색 결과에 없는 정보는 추측하지 마세요\n4. 정확하고 구체적인 답변을 제공하세요"

/-- `_get_conversation_system_prompt` (observation.py lines 447-460). -/
def conversationSystemPrompt (cfg : AgentConfig) : String :=
  basePrompt cfg ++
  "\n\n당신은 대화의 맥락을 정확히 기억하고 연속성 있는 답변을 제공하는 전문가입니다.\n\n**대화 연속성 규칙:**\n1. 이전 대화의 내용을 정확히 기억하고 참조하세요\n2. 연속성 질문에는 이전 답변을 이어서 설명하세요\n3. 이전 답변에서 언급한 내용을 구체적으로 확장하거나 보완하세요\n4. 자연스러운 대화 흐름을 유지하세요\n5. 이전 대화와의 연관성을 명확히 표현하세요"

/-- `_create_final_response` (observation.py lines 676-690). -/
def createFinalResponse (cfg : AgentConfig) (answer analysis : String) : ObsStep :=
  { model := cfg.observation_model
    content := answer
    parsed_result :=
      { analysis := analysis
        is_final_answer := true
        final_answer := some answer
        needs_retry := false
        retry_keywords := [] }
    error := false }

/-- `_create_error_response` (observation.py lines 692-706). -/
def createErrorResponse (cfg : AgentConfig) (error_msg : String) : ObsStep :=
  { model := cfg.observation_model
    content := error_msg
    parsed_result :=
      { analysis := "에러 발생"
        is_final_answer := true
        final_answer := some "죄송합니다. 처리 중 오류가 발생했습니다."
        needs_retry := false
        retry_keywords := [] }
    error := true }

/-- `_is_simple_greeting` of the observation agent (observation.py lines
523-531; unlike the orchestration variant it has no length bound and a longer
greeting list). -/
def isSimpleGreetingObs (query : String) : Bool :=
  let greetings : List String :=
    ["안녕", "hello", "hi", "hey", "안녕하세요", "안녕하십니까",
     "좋은 아침", "좋은 오후", "좋은 저녁", "반갑습니다"]
  greetings.any (fun g => pyContains (pyStrip (pyLower query)) g)

/-- The canned greeting responses of `_generate_greeting_response`
(observation.py lines 533-549), in dict insertion order. -/
def greetingResponses : List (String × String) :=
  [("안녕", "안녕하세요! 무엇을 도와드릴까요?"),
   ("hello", "Hello! How can I help you?"),
   ("hi", "Hi there! What can I do for you?"),
   ("안녕하세요", "안녕하세요! 궁금한 것이 있으시면 언제든 말씀해 주세요."),
   ("안녕하십니까", "안녕하십니까! 도움이 필요한 일이 있으시면 말씀해 주세요.")]

/-- `_generate_greeting_response`. -/
def generateGreetingResponse (query : String) : String :=
  match greetingResponses.find? (fun p => pyContains (pyStrip (pyLower query)) p.1) with
  | some p => p.2
  | none => "안녕하세요! 무엇을 도와드릴까요?"

/-- `_is_conversation_continuation_question` (observation.py lines 437-445). -/
def isContinuationQuestion (query : String) : Bool :=
  let continuation_patterns : List String :=
    ["다음은", "그럼", "그러면", "또는", "아니면", "그리고", "그런데",
     "그래서", "그렇다면", "계속", "이어서", "추가로", "더", "또", "그 외에"]
  continuation_patterns.any (fun p => pyContains (pyStrip (pyLower query)) p)

/-- The results text embedded in the synthesis prompts (observation.py lines
107-110): one `[id] content[:400]...` block with its source per citation. -/
def buildResultsText (citations : List Citation) : String :=
  String.join (citations.map (fun c =>
    "[" ++ toString c.id ++ "] " ++ pyTake c.content 400 ++ "...\n출처: " ++ c.source ++ "\n\n"))

/-- The condensed two-message context window of the synthesis prompts
(observation.py lines 113-120). -/
def buildPreviousContext (has_context : Bool) (history : List Msg) : String :=
  if has_context ∧ history ≠ [] then
    String.join ((history.drop (history.length - 2)).map (fun m =>
      if m.role = "user" then "이전 질문: " ++ m.content ++ "\n"
      else if m.role = "assistant" then "이전 답변: " ++ pyTake m.content 150 ++ "...\n"
      else ""))
  else ""

/-- The six-message context window of `_generate_context_aware_answer`
(observation.py lines 375-387). -/
def buildContextWindow (history : List Msg) : String :=
  String.join ((history.drop (history.length - 6)).map (fun m =>
    if m.role = "user" then "사용자: " ++ m.content ++ "\n"
    else if m.role = "assistant" then "어시스턴트: " ++ pyTake m.content 500 ++ "...\n"
    else ""))

/-- Number of Action steps in a trace (observation.py line 124). -/
def countActions (steps : List Step) : Nat :=
  (steps.filter (fun s => match s with | .action _ => true | _ => false)).length

/-- The citation list built over the latest action's results
(observation.py lines 88-99): ids are reassigned 1-based in result order. -/
def buildCitations (search_results : List SearchResult) : List Citation :=
  search_results.enum.map (fun p =>
    { id := p.1 + 1, content := p.2.content, source := p.2.source, score := p.2.score })

/-- The `results_with_citations` list (observation.py lines 101-104): each
result re-stamped with `citation_id := i + 1`; built by the source and not
consumed further. -/
def resultsWithCitations (search_results : List SearchResult) : List SearchResult :=
  search_results.enum.map (fun p => { p.2 with citation_id := p.1 + 1 })

/-- `_analyze_search_results_with_enhanced_citation` (observation.py lines
81-299): assign 1-based citation ids over the latest action's results, gate on
quality for the current iteration (`action_count + 1` over
`context.previous_steps`), then either synthesize a cited final answer or
request a retry with generated keywords.  The model call is the only raiser
and its exception is converted by the function's own handler. -/
def analyzeSearchResults (invoke : InvokeOracle) (cfg : AgentConfig)
    (search_results : List SearchResult) (context : Ctx)
    (search_keywords : List String) (context_info : ContextInfo) : ObsStep :=
  let original_query := context.original_query
  let citations : List Citation := buildCitations search_results
  let results_text := buildResultsText citations
  let previous_context := buildPreviousContext context_info.has_context context.conversation_history
  let action_count := countActions context.previous_steps
  let current_iteration := action_count + 1
  let qa := assessSearchQuality search_results original_query search_keywords current_iteration
  if 5 ≤ current_iteration ∨ qa.needs_retry = false then
    let prompt := if 5 ≤ current_iteration then
        PromptSpec.citationFinalIter previous_context original_query context_info.intent
          results_text current_iteration
      else
        PromptSpec.citationFinal previous_context original_query context_info.intent results_text
    match invoke
        { model_id := cfg.observation_model
          prompt := prompt
          temperature := cfg.temperature
          max_tokens := cfg.getMaxTokensForModel cfg.observation_model
          system_prompt := some (citationSystemPrompt cfg) } with
    | .error e => createErrorResponse cfg ("Citation 강화 검색 결과 분석 중 오류: " ++ e)
    | .ok response =>
      let enhanced_response := ensureCitationsInResponse response citations
      { model := cfg.observation_model
        content := enhanced_response
        parsed_result :=
          { analysis := "Citation 강화 검색 결과 " ++ toString search_results.length ++
              "개 분석 (" ++ toString current_iteration ++ "회차)"
            is_final_answer := true
            final_answer := some enhanced_response
            needs_retry := false
            retry_keywords := []
            citations := citations
            search_results_used := search_results.length
            iteration_count := current_iteration }
        search_results_count := search_results.length
        context_applied := context_info.has_context
        citations := citations
        quality_score := qa.score
        error := false }
  else
    let retry_keywords := generateRetryKeywords original_query search_keywords qa.reason
    { model := cfg.observation_model
      content := "Search results insufficient. Retry needed with keywords: " ++
        pyStrList retry_keywords
      parsed_result :=
        { analysis := "검색 결과 불충분 (" ++ toString current_iteration ++ "회차): " ++ qa.reason
          is_final_answer := false
          final_answer := some ""
          needs_retry := true
          retry_keywords := retry_keywords
          retry_reason := some qa.reason
          iteration_count := current_iteration }
      search_results_count := search_results.length
      quality_score := qa.score
      error := false }

/-- `_generate_context_aware_answer` (observation.py lines 372-435); the
Boolean interpolation prints `true`/`false` where Python prints
`True`/`False` — no claim reads this analysis text. -/
def generateContextAwareAnswer (invoke : InvokeOracle) (cfg : AgentConfig)
    (query : String) (history : List Msg) (context_info : ContextInfo) : ObsStep :=
  let previous_context := buildContextWindow history
  let is_continuation := isContinuationQuestion query
  let prompt := if is_continuation then PromptSpec.contextContinuation previous_context query
    else PromptSpec.contextGeneral previous_context query context_info.intent
  match invoke
      { model_id := cfg.observation_model
        prompt := prompt
        temperature := cfg.temperature
        max_tokens := min 2000 (cfg.getMaxTokensForModel cfg.observation_model)
        system_prompt := some (conversationSystemPrompt cfg) } with
  | .error e => createErrorResponse cfg ("맥락 인식 답변 생성 중 오류: " ++ e)
  | .ok response =>
    createFinalResponse cfg (pyStrip response)
      ("대화 맥락을 고려한 답변 생성 (연속성: " ++ toString is_continuation ++
        ", 의도: " ++ context_info.intent ++ ")")

/-- `_generate_general_answer` (observation.py lines 462-482). -/
def generateGeneralAnswer (invoke : InvokeOracle) (cfg : AgentConfig)
    (query : String) : ObsStep :=
  match invoke
      { model_id := cfg.observation_model
        prompt := .generalAnswer query
        temperature := cfg.temperature
        max_tokens := min 1000 (cfg.getMaxTokensForModel cfg.observation_model)
        system_prompt := some cfg.system_prompt } with
  | .error e => createErrorResponse cfg ("일반 답변 생성 중 오류: " ++ e)
  | .ok response => createFinalResponse cfg (pyStrip response) "일반적인 질문으로 직접 답변 생성"

/-- `_handle_search_failure_with_context` (observation.py lines 488-521). -/
def handleSearchFailureObs (invoke : InvokeOracle) (cfg : AgentConfig)
    (query : String) (search_keywords : List String) : ObsStep :=
  match invoke
      { model_id := cfg.observation_model
        prompt := .searchFailure query search_keywords
        temperature := cfg.temperature
        max_tokens := min 1200 (cfg.getMaxTokensForModel cfg.observation_model)
        system_prompt := some cfg.system_prompt } with
  | .error e => createErrorResponse cfg ("검색 실패 처리 중 오류: " ++ e)
  | .ok response =>
    createFinalResponse cfg (pyStrip response) "검색 실패 시 일반적인 가이드라인 제공"

/-- `_handle_no_action_case_with_context` (observation.py lines 352-370);
`_handle_no_search_case_with_context` delegates here unchanged. -/
def handleNoActionCaseObs (invoke : InvokeOracle) (cfg : AgentConfig)
    (context : Ctx) (context_info : ContextInfo) : ObsStep :=
  let original_query := context.original_query
  if isSimpleGreetingObs original_query then
    createFinalResponse cfg (generateGreetingResponse original_query) "간단한 인사말로 직접 답변 생성"
  else if context_info.has_context then
    generateContextAwareAnswer invoke cfg original_query context.conversation_history context_info
  else
    generateGeneralAnswer invoke cfg original_query

/-- `CitationEnhancedObservationAgent.observe` (observation.py lines 26-79):
locate the latest Action and Orchestration steps and dispatch on the action
outcome.  Every model call below is wrapped by its helper's own handler, so
the outer `except` clause (lines 66-79) is unreachable in this model. -/
def observe (invoke : InvokeOracle) (cfg : AgentConfig) (context : Ctx)
    (previous_steps : List Step) : ObsStep :=
  let action_result := previous_steps.reverse.findSome? (fun s =>
    match s with | .action a => some a | _ => none)
  let orchestration_result := previous_steps.reverse.findSome? (fun s =>
    match s with | .orchestration o => some o | _ => none)
  let context_info := extractContextInfo orchestration_result
  match action_result with
  | none => handleNoActionCaseObs invoke cfg context context_info
  | some a =>
    let search_results := a.search_results
    let action_error := a.parsed_result.error
    let search_keywords := a.parsed_result.search_keywords
    if search_results ≠ [] ∧ action_error = false then
      analyzeSearchResults invoke cfg search_results context search_keywords context_info
    else if search_results = [] ∧ action_error = false then
      handleNoActionCaseObs invoke cfg context context_info
    else
      handleSearchFailureObs invoke cfg context.original_query search_keywords

/-! ### Citation references pass (`ReActAgent._add_citation_references`,
src/CDK/docker_app/agents/react_agent.py lines 304-332) -/

/-- Stable insertion for the ascending sort of marker keys by integer value
(models `sorted(set(citations_used), key=int)`; ties between distinct digit
strings with equal value are ordered by first occurrence). -/
def insertByNumAsc (k : String) : List String → List String
  | [] => [k]
  | x :: xs =>
    if digitsToNat k < digitsToNat x then k :: x :: xs else x :: insertByNumAsc k xs

/-- Stable sort of marker keys, ascending by integer value. -/
def sortByNumAsc : List String → List String
  | [] => []
  | x :: xs => insertByNumAsc x (sortByNumAsc xs)

/-- The deduplicated marker keys of an answer, sorted by integer value
(`sorted(set(re.findall(r'\[(\d+)\]', answer)), key=int)`). -/
def sortedCitationKeys (answer : String) : List String :=
  sortByNumAsc (citationsUsed answer).eraseDups

/-- The distinct cited ids of an answer, as integers (the claim's "set of
cited ids"): marker digit strings, deduplicated, interpreted as numbers. -/
def citedNums (answer : String) : List Nat :=
  ((citationsUsed answer).eraseDups).map digitsToNat

/-- The content preview of one reference entry (react_agent.py line 323). -/
def contentPreviewOf (content : String) : String :=
  if 100 < pyLen content then pyTake content 100 ++ "..." else content

/-- The reference entries of `_add_citation_references` (lines 315-326): for
each cited id, the first search result carrying that `citation_id`, if any,
yields one `(id, line)` entry; ids with no matching result are skipped. -/
def citationReferencesList (answer : String) (search_results : List SearchResult) :
    List (Nat × String) :=
  (sortedCitationKeys answer).filterMap (fun k =>
    let citation_id := digitsToNat k
    match search_results.find? (fun r => r.citation_id = citation_id) with
    | some r =>
      some (citation_id,
        "[" ++ toString citation_id ++ "] " ++ r.source ++ ": " ++ contentPreviewOf r.content)
    | none => none)

/-- `ReActAgent._add_citation_references` (lines 304-332): append a references
block listing one line per cited id that resolves to a collected result; an
answer without markers, or with no resolvable marker, is returned unchanged. -/
def addCitationReferences (answer : String) (search_results : List SearchResult) : String :=
  if citationsUsed answer = [] then answer
  else
    match citationReferencesList answer search_results with
    | [] => answer
    | entries => answer ++ "\n\n**참조:**\n" ++ pyJoin "\n" (entries.map (fun e => e.2))

/-! ### Loop driver (`IntelligentReActAgent.run`,
src/agents/react_agent.py lines 64-198) -/

/-- The value `run` returns (the keys the spec's Loop Driver contract names;
timing is not modelled, and `total_iterations` is the count of Orchestration
steps as in the source's metadata). -/
structure RunResult where
  final_answer : String := ""
  steps : List Step := []
  total_iterations : Nat := 0
  termination_reason : String := ""
deriving DecidableEq

/-- Loop-local mutable state of one `run` call. -/
structure LoopState where
  context : Ctx := {}
  steps : List Step := []
  safety : SafetyState := {}
  final_answer : Option String := none
  termination_reason : String := "정상 완료"
deriving DecidableEq

/-- Outcome of one iteration body: `brk` leaves the loop, `next` continues. -/
inductive LoopFlow where
  | brk (st : LoopState)
  | next (st : LoopState)
deriving DecidableEq

/-- Oracle types for the three per-iteration steps; `.error` models a raised
exception, which `run`'s top-level handler absorbs. -/
abbrev OrchOracle := Ctx → Except String OrchStep
abbrev ActOracle := Ctx → List Step → Except String ActionStep
abbrev ObsOracle := Ctx → List Step → Except String ObsStep

/-- Number of Orchestration steps in a trace (react_agent.py line 187). -/
def countOrchestration (steps : List Step) : Nat :=
  (steps.filter (fun s => match s with | .orchestration _ => true | _ => false)).length

/-- The Action/Observation tail of one iteration body (react_agent.py lines
127-171): run Action, record its error flag, publish the trace into the
context, run Observation, then branch on final answer / retry-with-keywords /
safety controller — in that order, so a retry with keywords skips the safety
check (`continue`, line 161). -/
def actionPhase (hashFn : String → Int) (actO : ActOracle) (obsO : ObsOracle)
    (i : Nat) (st : LoopState) : Except (String × LoopState) LoopFlow :=
  match actO st.context st.steps with
  | .error e => .error (e, st)
  | .ok a =>
    let st := { st with steps := st.steps ++ [Step.action a],
                        safety := recordOrReset a.parsed_result.error st.safety }
    let st := { st with context := { st.context with previous_steps := st.steps } }
    match obsO st.context st.steps with
    | .error e => .error (e, st)
    | .ok ob =>
      let st := { st with steps := st.steps ++ [Step.observation ob] }
      let obp := ob.parsed_result
      if obp.is_final_answer then
        .ok (.brk { st with
          final_answer := some (obp.final_answer.getD "답변을 생성할 수 없습니다.")
          termination_reason := toString (i + 1) ++ "회 반복 후 완료" })
      else if obp.needs_retry ∧ obp.retry_keywords ≠ [] then
        .ok (.next { st with context :=
          { st.context with
            retry_keywords := obp.retry_keywords
            retry_reason := some (obp.retry_reason.getD "검색 결과 불충분") } })
      else
        let r := st.safety.shouldContinue hashFn (i + 1) a.parsed_result.typ
          a.parsed_result.search_keywords
        let st := { st with safety := r.2 }
        if r.1.1 then .ok (.next st)
        else
          .ok (.brk { st with
            termination_reason := "안전장치 작동: " ++ r.1.2
            final_answer := some
              (match obp.part_answer with
               | some p => if p ≠ "" then p else obp.final_answer.getD "부분적인 답변을 제공합니다."
               | none => obp.final_answer.getD "부분적인 답변을 제공합니다.") })

/-- One iteration body of `run` (react_agent.py lines 83-171): Orchestration,
error bookkeeping, the no-search shortcut into Observation (which falls
through to Action when that Observation is not final), then `actionPhase`. -/
def bodyStep (hashFn : String → Int) (orchO : OrchOracle) (actO : ActOracle)
    (obsO : ObsOracle) (i : Nat) (st : LoopState) : Except (String × LoopState) LoopFlow :=
  match orchO st.context with
  | .error e => .error (e, st)
  | .ok o =>
    let st := { st with steps := st.steps ++ [Step.orchestration o],
                        safety := recordOrReset o.parsed_result.error st.safety }
    if o.parsed_result.needs_kb_search = false then
      match obsO st.context st.steps with
      | .error e => .error (e, st)
      | .ok ob =>
        let st := { st with steps := st.steps ++ [Step.observation ob] }
        if ob.parsed_result.is_final_answer then
          .ok (.brk { st with
            final_answer := some (ob.parsed_result.final_answer.getD "답변을 생성할 수 없습니다.")
            termination_reason := "KB 검색 없이 답변 완료" })
        else
          actionPhase hashFn actO obsO i st
    else
      actionPhase hashFn actO obsO i st

/-- The `for iteration in range(max_iterations)` loop of `run`; the first
raised exception aborts the loop carrying the state reached so far. -/
def runLoop (hashFn : String → Int) (orchO : OrchOracle) (actO : ActOracle)
    (obsO : ObsOracle) : Nat → Nat → LoopState → Except (String × LoopState) LoopState
  | 0, _, st => .ok st
  | fuel + 1, i, st =>
    match bodyStep hashFn orchO actO obsO i st with
    | .error e => .error e
    | .ok (.brk st1) => .ok st1
    | .ok (.next st1) => runLoop hashFn orchO actO obsO fuel (i + 1) st1

/-- The loop state at the start of one `run` call (react_agent.py lines
68-80): fresh context and a fresh safety controller. -/
def initialState (max_iterations : Nat) (user_query : String)
    (conversation_history : List Msg) (kb_id kb_description : Option String) : LoopState :=
  { context :=
      { original_query := user_query
        conversation_history := conversation_history
        kb_id := kb_id
        kb_description := kb_description }
    safety := { max_iterations := max_iterations } }

/-- `IntelligentReActAgent.run` (react_agent.py lines 64-198): run the bounded
loop; when it ends without a final answer, substitute the apology and the
max-iterations reason (the `final_answer is None` check, line 173); when an
exception escapes an iteration, the top-level handler (lines 177-179) builds
the error answer from the exception text. -/
def runReAct (hashFn : String → Int) (orchO : OrchOracle) (actO : ActOracle)
    (obsO : ObsOracle) (max_iterations : Nat) (user_query : String)
    (conversation_history : List Msg) (kb_id kb_description : Option String) : RunResult :=
  match runLoop hashFn orchO actO obsO max_iterations 0
      (initialState max_iterations user_query conversation_history kb_id kb_description) with
  | .ok st =>
    match st.final_answer with
    | some fa =>
      { final_answer := fa
        steps := st.steps
        total_iterations := countOrchestration st.steps
        termination_reason := st.termination_reason }
    | none =>
      { final_answer := "죄송합니다. 충분한 정보를 찾을 수 없어 완전한 답변을 드리기 어렵습니다."
        steps := st.steps
        total_iterations := countOrchestration st.steps
        termination_reason := "최대 반복 횟수 도달" }
  | .error (e, st) =>
    { final_answer := "처리 중 오류가 발생했습니다: " ++ e
      steps := st.steps
      total_iterations := countOrchestration st.steps
      termination_reason := "예외 발생: " ++ e }

/-! ### Concrete collaborators used by the closed theorems -/

/-- A hash oracle (any function is a legal model of Python `hash`). -/
def hashZero : String → Int := fun _ => 0

/-- A model client whose every response is the empty string. -/
def invokeEmpty : InvokeOracle := fun _ => .ok ""

/-- A search transport returning no results. -/
def retrieveEmpty : RetrieveOracle := fun _ _ _ => .ok []

/-- A demo configuration with a configured knowledge base. -/
def cfgDemo : AgentConfig :=
  { orchestration_model := "us.anthropic.claude-3-5-haiku-20241022-v1:0"
    action_model := "us.amazon.nova-micro-v1:0"
    observation_model := "us.anthropic.claude-3-5-haiku-20241022-v1:0"
    kb_id := some "KB123"
    kb_description := some "" }

/-- A one-turn demo history. -/
def histDemo : List Msg := [{ role := "user", content := "회사 규정 알려줘" }]

/-- The loop driver composed with the real embedded agents (model client
returning empty text, empty search index). -/
def orchDemo : OrchOracle := fun c => .ok (orchestrate invokeEmpty cfgDemo c)

/-- Real action agent as a step oracle. -/
def actDemo : ActOracle := fun c s => .ok (act retrieveEmpty hashZero cfgDemo c s)

/-- Real observation agent as a step oracle. -/
def obsDemo : ObsOracle := fun c s => .ok (observe invokeEmpty cfgDemo c s)

/-- An orchestration oracle that always requests a search with a fixed
3-keyword set. -/
def orchRetryDemo : OrchOracle := fun _ =>
  .ok { parsed_result := { needs_kb_search := true, search_keywords := ["a", "b", "c"] } }

/-- An action oracle whose parsed result carries the same fixed 3-keyword
set. -/
def actRetryDemo : ActOracle := fun _ _ =>
  .ok { parsed_result := { search_keywords := ["a", "b", "c"] } }

/-- An observation oracle that always requests a retry with the same
3-keyword set. -/
def obsRetryDemo : ObsOracle := fun _ _ =>
  .ok { parsed_result := { needs_retry := true, retry_keywords := ["a", "b", "c"] } }

/-! ## Theorems -/

section Lemmas

/-- Splitting the Orchestration-step count over an append. -/
theorem countOrch_append (l1 l2 : List Step) :
    countOrchestration (l1 ++ l2) = countOrchestration l1 + countOrchestration l2 := by
  simp [countOrchestration, List.filter_append]

/-- An Action step does not count as an Orchestration step. -/
theorem countOrch_action (a : ActionStep) : countOrchestration [Step.action a] = 0 := rfl

/-- An Observation step does not count as an Orchestration step. -/
theorem countOrch_obs (ob : ObsStep) : countOrchestration [Step.observation ob] = 0 := rfl

/-- One Orchestration step counts once. -/
theorem countOrch_orch (o : OrchStep) : countOrchestration [Step.orchestration o] = 1 := rfl

/-- The quality gate, characterised: for a non-empty result list the gate
reports the evidence sufficient exactly when, below iteration 5, the
iteration-adaptive thresholds hold — and unconditionally from iteration 5 on
(every retry branch of the source carries an `iteration < 5` guard). -/
theorem assess_needs_retry_false_iff (r0 : SearchResult) (rest : List SearchResult)
    (q : String) (kw : List String) (k : Nat) :
    (assessSearchQuality (r0 :: rest) q kw k).needs_retry = false ↔
      (k < 5 → claimGateSufficient (r0 :: rest) k) := by
  by_cases hk : k < 5
  · simp only [assessSearchQuality, hk, and_true, true_implies, claimGateSufficient]
    split_ifs with h1 h2 h3 h4
    · obtain ⟨hlen, hsc⟩ := h1
      have hrest : rest = [] := by
        rcases rest with _ | ⟨x, xs⟩
        · rfl
        · simp at hlen
      subst hrest
      constructor
      · intro hfalse
        simp at hfalse
      · rintro ⟨-, hmm, -⟩
        simp only [maxScore, List.foldl_nil] at hmm
        exact absurd hmm (not_le.mpr hsc)
    · constructor
      · intro hfalse
        simp at hfalse
      · rintro ⟨havg, -, -⟩
        exact absurd havg (not_le.mpr h2)
    · constructor
      · intro hfalse
        simp at hfalse
      · rintro ⟨-, hmax, -⟩
        exact absurd hmax (not_le.mpr h3)
    · constructor
      · intro hfalse
        simp at hfalse
      · rintro ⟨-, -, hlen⟩
        exact absurd hlen (not_le.mpr h4)
    · simp only [true_iff]
      exact ⟨le_of_not_lt h2, le_of_not_lt h3, le_of_not_lt h4⟩
  · simp only [assessSearchQuality, hk, and_false, if_false]
    simp [hk]

end Lemmas

/-- C2 (amended).  For every non-empty search-result list and iteration count
k, the quality gate reports the evidence sufficient (`needs_retry = false`)
exactly when — for k below 5 — average score, maximum score and total content
length meet the iteration-adaptive thresholds (k ≤ 2: avg ≥ 0.5, max ≥ 0.6,
length ≥ 200; k ≤ 4: avg ≥ 0.4, max ≥ 0.5, length ≥ 150); from iteration 5 on
every non-empty result set is accepted unconditionally, regardless of scores
and content length (each retry condition of the source is guarded by
`iteration < 5`), not merely those meeting the relaxed 0.2/0.3/50
thresholds. -/
theorem quality_gate_characterisation (results : List SearchResult) (q : String)
    (kw : List String) (k : Nat) (h : results ≠ []) :
    (assessSearchQuality results q kw k).needs_retry = false ↔
      (k < 5 → claimGateSufficient results k) := by
  rcases results with _ | ⟨r0, rest⟩
  · exact absurd rfl h
  · exact assess_needs_retry_false_iff r0 rest q kw k

/-- C2 witness: the characterisation applied at a concrete non-empty result
list and iteration 1. -/
theorem quality_gate_characterisation_witness :
    (([({ content := "doc", score := 1 } : SearchResult)] : List SearchResult) ≠ []) ∧
    ((assessSearchQuality [{ content := "doc", score := 1 }] "q" ["k"] 1).needs_retry = false ↔
      (1 < 5 → claimGateSufficient [{ content := "doc", score := 1 }] 1)) :=
  ⟨by simp, quality_gate_characterisation [{ content := "doc", score := 1 }] "q" ["k"] 1 (by simp)⟩

/-- C2 counterexample: at iteration 5 a single result with score 0 and empty
content is accepted (`needs_retry = false`) although it meets none of the
claimed k ≥ 5 thresholds (avg ≥ 0.2, max ≥ 0.3, length ≥ 50) — the claimed
"exactly when" fails at this input. -/
theorem quality_gate_accepts_anything_at_5 :
    (assessSearchQuality [{ content := "", score := 0 }] "" [] 5).needs_retry = false ∧
    ¬ claimGateSufficient [({ content := "", score := 0 } : SearchResult)] 5 := by
  constructor
  · have := assess_needs_retry_false_iff ({ content := "", score := 0 } : SearchResult) [] "" [] 5
    simp at this
    exact this
  · intro hgate
    obtain ⟨havg, -, -⟩ := hgate
    have : avgScore [({ content := "", score := 0 } : SearchResult)] = 0 := by
      simp [avgScore]
    rw [this] at havg
    have : minAvgScore 5 = 1/5 := by norm_num [minAvgScore]
    rw [this] at havg
    norm_num at havg

/-- C6 (confirmed).  `SafetyController.should_continue` implements exactly the
claimed ordered first-match rule list: (1) iteration at the bound stops;
(2) three consecutive errors stop; (3) a non-empty keyword set of cardinality
above 2 contained in the cumulative used set stops, and otherwise the
keywords are merged; (4) an action signature already seen at least twice
stops, and otherwise it is appended; (5) otherwise continue — decision,
reason and mutated state all agree with the rule-list rendering. -/
theorem safety_controller_matches_rules (hashFn : String → Int) (s : SafetyState)
    (it : Nat) (typ : Option String) (kws : List String) :
    s.shouldContinue hashFn it typ kws = safetyRulesSpec hashFn s it typ kws := by
  unfold SafetyState.shouldContinue safetyRulesSpec
  by_cases h1 : s.max_iterations ≤ it
  · simp [h1, ge_iff_le]
  · by_cases h2 : s.max_errors ≤ s.error_count
    · simp [h1, h2, ge_iff_le]
    · rcases eq_or_ne kws [] with h3 | h3
      · subst h3
        simp [h1, h2, ge_iff_le]
      · have hiff : kws.toFinset.Nonempty := by
          rcases kws with _ | ⟨x, xs⟩
          · exact absurd rfl h3
          · exact ⟨x, by simp⟩
        have hcond :
            (kws ≠ [] ∧ kws.toFinset.Nonempty ∧ kws.toFinset ⊆ s.used_keywords ∧
              2 < kws.toFinset.card) ↔
            (kws.toFinset.Nonempty ∧ 2 < kws.toFinset.card ∧ kws.toFinset ⊆ s.used_keywords) := by
          constructor
          · rintro ⟨-, -, hsub, hcard⟩
            exact ⟨hiff, hcard, hsub⟩
          · rintro ⟨-, hcard, hsub⟩
            exact ⟨h3, hiff, hsub, hcard⟩
        rw [if_congr hcond rfl rfl]
        simp [h1, h2, h3, ge_iff_le]

/-- C8 (confirmed).  For the greeting query "hello" with empty conversation
history, `orchestrate` always returns the direct-answer result — with
`needs_kb_search = false` and confidence 0.9 — and that result is literally
independent of the knowledge-base configuration (`kb_id`, `kb_description`),
of any pending retry state and of the model oracle. -/
theorem greeting_orchestration_independent (invoke : InvokeOracle) (cfg : AgentConfig)
    (kbid kbdesc : Option String) (retrykw : List String) (retryr : Option String)
    (prev : List Step) :
    orchestrate invoke cfg
      { original_query := "hello", conversation_history := [], kb_id := kbid
        kb_description := kbdesc, retry_keywords := retrykw, retry_reason := retryr
        previous_steps := prev } =
      createDirectAnswerResult cfg "hello" "Simple greeting" ∧
    (createDirectAnswerResult cfg "hello" "Simple greeting").parsed_result.needs_kb_search = false ∧
    (createDirectAnswerResult cfg "hello" "Simple greeting").parsed_result.confidence = 9/10 := by
  have hcont : isConversationContinuation "hello" [] = false := by decide
  have hgreet : isSimpleGreeting "hello" = true := by decide
  refine ⟨?_, rfl, rfl⟩
  simp [orchestrate, hcont, hgreet]

/-- C10 (amended).  The legacy and converged safety controllers are not
decision-equivalent, but one direction holds: from equal internal state, any
single input the converged controller stops on is also stopped by the legacy
controller (the legacy one is strictly stricter — it stops already on the
second occurrence of a signature and on repeated keyword sets of any size). -/
theorem legacy_stops_whenever_converged_stops (hashFn : String → Int) (s : SafetyState)
    (it : Nat) (typ : Option String) (kws : List String)
    (h : (s.shouldContinue hashFn it typ kws).1.1 = false) :
    (s.shouldContinueLegacy hashFn it typ kws).1.1 = false := by
  unfold SafetyState.shouldContinue at h
  unfold SafetyState.shouldContinueLegacy
  by_cases h1 : s.max_iterations ≤ it
  · simp [h1]
  · by_cases h2 : s.max_errors ≤ s.error_count
    · simp [h1, h2]
    · simp only [h1, h2, if_false] at h ⊢
      by_cases h3 : kws ≠ [] ∧ kws.toFinset.Nonempty ∧ kws.toFinset ⊆ s.used_keywords ∧
          2 < kws.toFinset.card
      · by_cases h5 : actionSignature hashFn typ kws ∈ s.repeated_actions
        · simp [h5]
        · simp [h5, h3.1, h3.2.2.1]
      · simp only [h3, if_false] at h
        have hrep : (if kws ≠ [] then
            { s with used_keywords := s.used_keywords ∪ kws.toFinset }
            else s).repeated_actions = s.repeated_actions := by
          split <;> rfl
        rw [hrep] at h
        by_cases h4 : 2 ≤ s.repeated_actions.count (actionSignature hashFn typ kws)
        · have hmem : actionSignature hashFn typ kws ∈ s.repeated_actions := by
            have hpos : 0 < s.repeated_actions.count (actionSignature hashFn typ kws) := by
              omega
            exact List.count_pos_iff.mp hpos
          simp [hmem]
        · simp [h4] at h

/-- C10 witness: at iteration 5 from the initial state, the converged
controller stops, hence so does the legacy controller. -/
theorem legacy_stops_whenever_converged_stops_witness :
    (({} : SafetyState).shouldContinueLegacy (fun _ => 0) 5 none []).1.1 = false :=
  legacy_stops_whenever_converged_stops (fun _ => 0) {} 5 none [] (by decide)

/-- C10 counterexample: the two controllers are not decision-equivalent.
Starting from the same fresh state, on the input sequence that repeats the
same single-keyword action twice, the converged controller continues at both
steps while the legacy controller stops at the second step (its
signature-repetition rule fires on the first repeat, and its keyword rule has
no cardinality threshold). -/
theorem safety_controllers_not_equivalent :
    ((({} : SafetyState).shouldContinue (fun _ => 0) 1 (some "Action") ["a"]).1.1 = true) ∧
    (((({} : SafetyState).shouldContinue (fun _ => 0) 1 (some "Action") ["a"]).2.shouldContinue
        (fun _ => 0) 2 (some "Action") ["a"]).1.1 = true) ∧
    ((({} : SafetyState).shouldContinueLegacy (fun _ => 0) 1 (some "Action") ["a"]).1.1 = true) ∧
    (((({} : SafetyState).shouldContinueLegacy (fun _ => 0) 1 (some "Action") ["a"]).2.shouldContinueLegacy
        (fun _ => 0) 2 (some "Action") ["a"]).1.1 = false) := by
  decide

/-- Mapping an id-assigning `enum` (ids `i + 1` in order) yields exactly
`[1, …, length]`. -/
theorem enum_assign_ids {α β : Type} (l : List α) (f : Nat × α → β) (g : β → Nat)
    (hf : ∀ p, g (f p) = p.1 + 1) :
    (l.enum.map f).map g = List.range' 1 l.length := by
  rw [List.map_map]
  have h1 : (g ∘ f) = fun p : Nat × α => p.1 + 1 := funext hf
  rw [h1]
  have h2 : (fun p : Nat × α => p.1 + 1) = (fun i => i + 1) ∘ Prod.fst := rfl
  rw [h2, ← List.map_map, List.enum_map_fst, List.range'_eq_map_range]
  refine List.map_congr_left ?_
  intro a _
  omega

/-- C5 (amended).  Citation ids are unique and contiguous starting at 1
within the output of one `search` call, and the Observation agent's citation
assignment over the latest action's results likewise re-stamps ids `1..n` in
order — so across retries ids restart at 1 and an id is re-bound to the new
evidence rather than growing monotonically; in merged multi-query action
results the per-query numbering may repeat (see the counterexample). -/
theorem citation_ids_contiguous_per_call (retrieve : RetrieveOracle) (kb q : String)
    (n : Nat) (sr : List SearchResult) :
    ((search retrieve kb q n).map (fun r => r.citation_id) =
      List.range' 1 (search retrieve kb q n).length) ∧
    ((buildCitations sr).map (fun c => c.id) = List.range' 1 sr.length) ∧
    ((resultsWithCitations sr).map (fun r => r.citation_id) = List.range' 1 sr.length) := by
  refine ⟨?_, ?_, ?_⟩
  · unfold search
    split
    · simp
    · rcases hres : retrieve kb q n with e | raws
      · simp
      · simp only [List.length_map, List.enum_length]
        exact enum_assign_ids raws _ _ (fun p => rfl)
  · exact enum_assign_ids sr _ _ (fun p => rfl)
  · exact enum_assign_ids sr _ _ (fun p => rfl)

/-- C5 counterexample: one Action-step collection
(`search_multiple_queries`) over two queries, each returning one distinct
document, yields citation ids `[1, 1]` — not unique, hence not contiguous
starting at 1, and the duplicated id 1 names two different pieces of
evidence within the same turn. -/
theorem citation_ids_duplicated_across_queries :
    ((searchMultipleQueries
        (fun _ q _ => .ok (if q = "q1" then [{ content := "A", score := 2 }]
          else [{ content := "BB", score := 1 }]))
        (fun s => (s.length : Int)) "KB" ["q1", "q2"] 2).map (fun r => r.citation_id)
      = [1, 1]) ∧
    ((searchMultipleQueries
        (fun _ q _ => .ok (if q = "q1" then [{ content := "A", score := 2 }]
          else [{ content := "BB", score := 1 }]))
        (fun s => (s.length : Int)) "KB" ["q1", "q2"] 2).map (fun r => r.content)
      = ["A", "BB"]) ∧
    ¬ ([1, 1] : List Nat).Nodup := by
  refine ⟨by decide, by decide, by decide⟩

/-- C3 counterexample: with Observation requesting a retry with the same
3-element keyword set at every iteration, that set reaches its third (even
fifth) occurrence and the loop never stops with "keyword repetition" — the
`continue` on a retry with keywords (react_agent.py line 161) skips the
Safety Controller entirely, and the run ends by the iteration bound with
reason "최대 반복 횟수 도달" after all 5 iterations. -/
theorem keyword_repetition_not_stopped_on_retry :
    ((runReAct hashZero orchRetryDemo actRetryDemo obsRetryDemo 5 "q" [] none none).termination_reason
      = "최대 반복 횟수 도달") ∧
    ((runReAct hashZero orchRetryDemo actRetryDemo obsRetryDemo 5 "q" [] none none).total_iterations = 5) ∧
    (((runReAct hashZero orchRetryDemo actRetryDemo obsRetryDemo 5 "q" [] none none).steps.filter
        (fun s => match s with
          | Step.action a => decide (a.parsed_result.search_keywords = ["a", "b", "c"])
          | _ => false)).length = 5) := by
  refine ⟨by decide, by decide, by decide⟩

/-- C3 (amended).  The keyword-repetition stop is reached only at iterations
where Observation neither returns a final answer nor requests a retry with
non-empty keywords; in that case a repeated keyword set of cardinality above
2 stops the loop at its second checked occurrence (not the third) with
termination reason "keyword repetition", and a best-effort answer is taken
from the Observation step.  When Observation requests retries with keywords,
the safety check is skipped and the loop runs to the iteration bound
instead. -/
theorem keyword_repetition_stops_when_observation_silent (hashFn : String → Int)
    (o : OrchStep) (a : ActionStep) (ob : ObsStep)
    (q : String) (hist : List Msg) (kb kbd : Option String)
    (ho_err : o.parsed_result.error = false)
    (ho_search : o.parsed_result.needs_kb_search = true)
    (ha_err : a.parsed_result.error = false)
    (hcard : 2 < a.parsed_result.search_keywords.toFinset.card)
    (hob_final : ob.parsed_result.is_final_answer = false)
    (hob_retry : ob.parsed_result.needs_retry = false) :
    ((runReAct hashFn (fun _ => .ok o) (fun _ _ => .ok a) (fun _ _ => .ok ob) 5 q hist kb kbd).termination_reason =
      "안전장치 작동: 동일한 검색 키워드가 반복되어 루프를 중단합니다.") ∧
    ((runReAct hashFn (fun _ => .ok o) (fun _ _ => .ok a) (fun _ _ => .ok ob) 5 q hist kb kbd).total_iterations = 2) := by
  have hne : a.parsed_result.search_keywords ≠ [] := by
    intro hnil
    rw [hnil] at hcard
    simp at hcard
  have hnonempty : a.parsed_result.search_keywords.toFinset.Nonempty :=
    Finset.card_pos.mp (by omega)
  have hnotsub : ¬ (a.parsed_result.search_keywords.toFinset ⊆ (∅ : Finset String)) := by
    intro hsub
    rw [Finset.subset_empty] at hsub
    rw [hsub] at hcard
    simp at hcard
  constructor <;>
    simp [runReAct, initialState, runLoop, bodyStep, actionPhase, recordOrReset,
      SafetyState.shouldContinue,
      ho_err, ho_search, ha_err, hob_final, hob_retry, hne, hnonempty, hnotsub, hcard,
      Finset.empty_union, countOrchestration, List.filter]

/-- C3 witness: the amended statement at a concrete silent Observation and a
concrete 3-keyword action. -/
theorem keyword_repetition_stops_when_observation_silent_witness :
    ((runReAct (fun _ => 0)
        (fun _ => .ok { parsed_result := { needs_kb_search := true } })
        (fun _ _ => .ok { parsed_result := { search_keywords := ["a", "b", "c"] } })
        (fun _ _ => .ok {}) 5 "q" [] none none).termination_reason =
      "안전장치 작동: 동일한 검색 키워드가 반복되어 루프를 중단합니다.") ∧
    ((runReAct (fun _ => 0)
        (fun _ => .ok { parsed_result := { needs_kb_search := true } })
        (fun _ _ => .ok { parsed_result := { search_keywords := ["a", "b", "c"] } })
        (fun _ _ => .ok {}) 5 "q" [] none none).total_iterations = 2) :=
  keyword_repetition_stops_when_observation_silent (fun _ => 0)
    { parsed_result := { needs_kb_search := true } }
    { parsed_result := { search_keywords := ["a", "b", "c"] } }
    {} "q" [] none none rfl rfl rfl (by decide) rfl rfl

/-- A dict `.get`-with-default read is non-empty when the stored value is not
the empty string and the default is not either. -/
theorem getD_ne_empty {x : Option String} {d : String} (hx : x ≠ some "") (hd : d ≠ "") :
    x.getD d ≠ "" := by cases x <;> simp_all

/-- One action/observation tail of an iteration: it raises, continues or
breaks; it appends no Orchestration step; it leaves the pending final answer
untouched unless it breaks, and a break installs a non-empty final answer
whenever no Observation output carries an empty `final_answer` string. -/
theorem actionPhase_spec (hashFn : String → Int) (aO : ActOracle) (bO : ObsOracle)
    (Hobs : ∀ c s ob, bO c s = .ok ob → ob.parsed_result.final_answer ≠ some "")
    (i : Nat) (st : LoopState) :
    match actionPhase hashFn aO bO i st with
    | .error (_, st') =>
      countOrchestration st'.steps = countOrchestration st.steps ∧
        st'.final_answer = st.final_answer
    | .ok (.next st') =>
      countOrchestration st'.steps = countOrchestration st.steps ∧
        st'.final_answer = st.final_answer
    | .ok (.brk st') =>
      countOrchestration st'.steps = countOrchestration st.steps ∧
        ∃ fa, st'.final_answer = some fa ∧ fa ≠ "" := by
  unfold actionPhase
  rcases hact : aO st.context st.steps with e | a
  · simp
  · rcases hob : bO { st.context with
        previous_steps := st.steps ++ [Step.action a] } (st.steps ++ [Step.action a]) with e2 | ob
    · simp [hob, countOrchestration, List.filter_append, List.filter]
    · have hobne := Hobs _ _ _ hob
      simp only [hob]
      by_cases hfin : ob.parsed_result.is_final_answer = true
      · simp [hfin, countOrchestration, List.filter_append, List.filter]
        exact getD_ne_empty hobne (by decide)
      · by_cases hretry : ob.parsed_result.needs_retry = true ∧ ob.parsed_result.retry_keywords ≠ []
        · simp [hfin, hretry, countOrchestration, List.filter_append, List.filter]
        · by_cases hcont : ((recordOrReset a.parsed_result.error st.safety).shouldContinue hashFn
              (i + 1) a.parsed_result.typ a.parsed_result.search_keywords).1.1 = true
          · simp [hfin, hretry, hcont, countOrchestration, List.filter_append, List.filter]
          · rcases hpart : ob.parsed_result.part_answer with _ | p
            · simp [hpart, hfin, hretry, hcont, countOrchestration, List.filter_append, List.filter]
              exact getD_ne_empty hobne (by decide)
            · by_cases hp : p = ""
              · simp [hpart, hp, hfin, hretry, hcont, countOrchestration, List.filter_append,
                  List.filter]
                exact getD_ne_empty hobne (by decide)
              · simp [hpart, hp, hfin, hretry, hcont, countOrchestration, List.filter_append,
                  List.filter]

/-- One full iteration body appends exactly one Orchestration step (so at most
one per iteration), and breaks only with a non-empty final answer under the
same Observation proviso. -/
theorem bodyStep_spec (hashFn : String → Int) (oO : OrchOracle) (aO : ActOracle) (bO : ObsOracle)
    (Hobs : ∀ c s ob, bO c s = .ok ob → ob.parsed_result.final_answer ≠ some "")
    (i : Nat) (st : LoopState) :
    match bodyStep hashFn oO aO bO i st with
    | .error (_, st') =>
      countOrchestration st'.steps ≤ countOrchestration st.steps + 1 ∧
        st'.final_answer = st.final_answer
    | .ok (.next st') =>
      countOrchestration st'.steps ≤ countOrchestration st.steps + 1 ∧
        st'.final_answer = st.final_answer
    | .ok (.brk st') =>
      countOrchestration st'.steps ≤ countOrchestration st.steps + 1 ∧
        ∃ fa, st'.final_answer = some fa ∧ fa ≠ "" := by
  unfold bodyStep
  rcases horch : oO st.context with e | o
  · simp
  · simp only [horch]
    by_cases hkb : o.parsed_result.needs_kb_search = false
    · simp only [hkb, if_true]
      rcases hob : bO st.context (st.steps ++ [Step.orchestration o]) with e2 | ob
      · simp [hob, countOrchestration, List.filter_append, List.filter]
      · have hobne := Hobs _ _ _ hob
        simp only [hob]
        by_cases hfin : ob.parsed_result.is_final_answer = true
        · simp [hfin, countOrchestration, List.filter_append, List.filter]
          exact getD_ne_empty hobne (by decide)
        · simp only [hfin, Bool.false_eq_true, if_false]
          have hcA : countOrchestration (st.steps ++ [Step.orchestration o] ++ [Step.observation ob])
              = countOrchestration st.steps + 1 := by
            simp [countOrchestration, List.filter_append, List.filter]
          have h2 := actionPhase_spec hashFn aO bO Hobs i
            { context := st.context
              steps := st.steps ++ [Step.orchestration o] ++ [Step.observation ob]
              safety := recordOrReset o.parsed_result.error st.safety
              final_answer := st.final_answer
              termination_reason := st.termination_reason }
          revert h2
          rcases actionPhase hashFn aO bO i
            { context := st.context
              steps := st.steps ++ [Step.orchestration o] ++ [Step.observation ob]
              safety := recordOrReset o.parsed_result.error st.safety
              final_answer := st.final_answer
              termination_reason := st.termination_reason } with ⟨e3, st3⟩ | fl
          · intro h2
            refine ⟨?_, h2.2⟩
            rw [h2.1]
            simp only [hcA]
            omega
          · rcases fl with st3 | st3
            · intro h2
              refine ⟨?_, h2.2⟩
              rw [h2.1]
              simp only [hcA]
              omega
            · intro h2
              refine ⟨?_, h2.2⟩
              rw [h2.1]
              simp only [hcA]
              omega
    · simp only [hkb, if_false]
      have hcB : countOrchestration (st.steps ++ [Step.orchestration o])
          = countOrchestration st.steps + 1 := by
        simp [countOrchestration, List.filter_append, List.filter]
      have h2 := actionPhase_spec hashFn aO bO Hobs i
        { context := st.context
          steps := st.steps ++ [Step.orchestration o]
          safety := recordOrReset o.parsed_result.error st.safety
          final_answer := st.final_answer
          termination_reason := st.termination_reason }
      revert h2
      rcases actionPhase hashFn aO bO i
        { context := st.context
          steps := st.steps ++ [Step.orchestration o]
          safety := recordOrReset o.parsed_result.error st.safety
          final_answer := st.final_answer
          termination_reason := st.termination_reason } with ⟨e3, st3⟩ | fl
      · intro h2
        refine ⟨?_, h2.2⟩
        rw [h2.1]
        simp only [hcB]
        omega
      · rcases fl with st3 | st3
        · intro h2
          refine ⟨?_, h2.2⟩
          rw [h2.1]
          simp only [hcB]
          omega
        · intro h2
          refine ⟨?_, h2.2⟩
          rw [h2.1]
          simp only [hcB]
          omega

/-- The bounded loop adds at most `fuel` Orchestration steps and, when it ends
regularly, either kept the initial pending answer or installed a non-empty
final answer (under the Observation proviso). -/
theorem runLoop_spec (hashFn : String → Int) (oO : OrchOracle) (aO : ActOracle) (bO : ObsOracle)
    (Hobs : ∀ c s ob, bO c s = .ok ob → ob.parsed_result.final_answer ≠ some "") :
    ∀ (fuel i : Nat) (st : LoopState),
    match runLoop hashFn oO aO bO fuel i st with
    | .error (_, st') =>
      countOrchestration st'.steps ≤ countOrchestration st.steps + fuel
    | .ok st' =>
      countOrchestration st'.steps ≤ countOrchestration st.steps + fuel ∧
        (st'.final_answer = st.final_answer ∨ ∃ fa, st'.final_answer = some fa ∧ fa ≠ "") := by
  intro fuel
  induction fuel with
  | zero =>
    intro i st
    simp [runLoop]
  | succ fuel ih =>
    intro i st
    have hb := bodyStep_spec hashFn oO aO bO Hobs i st
    simp only [runLoop]
    revert hb
    rcases bodyStep hashFn oO aO bO i st with ⟨e, st1⟩ | fl
    · dsimp only
      intro hb
      omega
    · rcases fl with st1 | st1
      · dsimp only
        intro hb
        obtain ⟨hb1, hb2⟩ := hb
        exact ⟨by omega, Or.inr hb2⟩
      · dsimp only
        intro hb
        obtain ⟨hb1, hb2⟩ := hb
        have hrec := ih (i + 1) st1
        revert hrec
        rcases runLoop hashFn oO aO bO fuel (i + 1) st1 with ⟨e, st2⟩ | st2
        · dsimp only
          intro hrec
          omega
        · dsimp only
          intro hrec
          obtain ⟨hr1, hr2⟩ := hrec
          refine ⟨by omega, ?_⟩
          rcases hr2 with heq | hne
          · exact Or.inl (heq.trans hb2)
          · exact Or.inr hne

/-- C1 (amended).  For every behaviour of the model and search collaborators
— equivalently, for every behaviour of the three step oracles, raising ones
included — `run` executes its iteration body at most `max_iterations` times
(the trace holds at most that many Orchestration steps); and the returned
answer text is a non-empty string provided no Observation step delivers an
empty `final_answer` string.  Without that proviso the answer can be empty:
the source guards only `final_answer is None`, not the empty string (see the
counterexample). -/
theorem loop_iteration_bound_and_answer_nonempty (hashFn : String → Int)
    (oO : OrchOracle) (aO : ActOracle) (bO : ObsOracle)
    (mi : Nat) (q : String) (hist : List Msg) (kb kbd : Option String)
    (Hobs : ∀ c s ob, bO c s = .ok ob → ob.parsed_result.final_answer ≠ some "") :
    (runReAct hashFn oO aO bO mi q hist kb kbd).final_answer ≠ "" ∧
    (runReAct hashFn oO aO bO mi q hist kb kbd).total_iterations ≤ mi := by
  have hspec := runLoop_spec hashFn oO aO bO Hobs mi 0 (initialState mi q hist kb kbd)
  unfold runReAct
  revert hspec
  rcases runLoop hashFn oO aO bO mi 0 (initialState mi q hist kb kbd) with ⟨e, st⟩ | st
  · dsimp only
    intro hspec
    constructor
    · intro hcontra
      have hlen := congrArg String.length hcontra
      rw [String.length_append] at hlen
      have h1 : ("처리 중 오류가 발생했습니다: ").length = 17 := by decide
      have h2 : ("").length = 0 := by decide
      omega
    · simpa [initialState, countOrchestration] using hspec
  · dsimp only
    intro hspec
    obtain ⟨hcount, hfinal⟩ := hspec
    rcases hf : st.final_answer with _ | fa
    · simp only [hf]
      refine ⟨by decide, by simpa [initialState, countOrchestration] using hcount⟩
    · simp only [hf]
      refine ⟨?_, by simpa [initialState, countOrchestration] using hcount⟩
      rcases hfinal with heq | ⟨fa2, hfa2, hfa2ne⟩
      · rw [hf] at heq
        simp [initialState] at heq
      · rw [hf] at hfa2
        injection hfa2 with h
        rw [← h] at hfa2ne
        exact hfa2ne

/-- C1 witness: the bound and non-emptiness at concrete oracles whose
Observation output always finalises with the answer "ok". -/
theorem loop_iteration_bound_and_answer_nonempty_witness :
    ((runReAct (fun _ => 0) (fun _ => .ok {}) (fun _ _ => .ok {})
        (fun _ _ => .ok { parsed_result := { is_final_answer := true, final_answer := some "ok" } })
        5 "q" [] none none).final_answer ≠ "") ∧
    ((runReAct (fun _ => 0) (fun _ => .ok {}) (fun _ _ => .ok {})
        (fun _ _ => .ok { parsed_result := { is_final_answer := true, final_answer := some "ok" } })
        5 "q" [] none none).total_iterations ≤ 5) :=
  loop_iteration_bound_and_answer_nonempty (fun _ => 0) (fun _ => .ok {}) (fun _ _ => .ok {})
    (fun _ _ => .ok { parsed_result := { is_final_answer := true, final_answer := some "ok" } })
    5 "q" [] none none
    (fun _ _ ob h => by injection h with h; rw [← h]; decide)

/-- C1 counterexample: the loop driver composed with the real embedded agents
(the CDK `OptimizedOrchestrationAgent`, the CDK `ActionAgent` and the
citation-enhanced Observation agent), a configured knowledge base and a model
client that returns an empty string: the continuation query "그럼" takes the
no-search path, the Observation agent finalises with the model's empty text,
and `run` returns an empty answer text — the `final_answer is None` fallback
(react_agent.py line 173) does not catch the empty string. -/
theorem empty_model_response_yields_empty_answer :
    ((runReAct hashZero orchDemo actDemo obsDemo 5 "그럼" histDemo (some "KB123") (some "")).final_answer
      = "") ∧
    ((runReAct hashZero orchDemo actDemo obsDemo 5 "그럼" histDemo (some "KB123") (some "")).termination_reason
      = "KB 검색 없이 답변 완료") := by
  refine ⟨by decide, by decide⟩

/-- C7 (confirmed).  No exception escapes the loop driver, and each boundary
converts failures into structured results: (i) whenever an iteration raises
(`runLoop` yields `.error`), `run`'s top-level handler still returns the
well-formed result object built from the exception text and the trace reached
so far — for every behaviour of the step collaborators, raising ones
included; (ii) the Observation agent always returns a decision step (final
answer or retry request), for every model-client behaviour, since each of its
model calls is wrapped by its own handler; (iii) the search client converts a
raising transport into the empty result list. -/
theorem no_exception_escapes_run :
    (∀ (hashFn : String → Int) (oO : OrchOracle) (aO : ActOracle) (bO : ObsOracle)
       (mi : Nat) (q : String) (hist : List Msg) (kb kbd : Option String)
       (e : String) (st : LoopState),
       runLoop hashFn oO aO bO mi 0 (initialState mi q hist kb kbd) = .error (e, st) →
       runReAct hashFn oO aO bO mi q hist kb kbd =
         { final_answer := "처리 중 오류가 발생했습니다: " ++ e
           steps := st.steps
           total_iterations := countOrchestration st.steps
           termination_reason := "예외 발생: " ++ e }) ∧
    (∀ (invoke : InvokeOracle) (cfg : AgentConfig) (c : Ctx) (steps : List Step),
       (observe invoke cfg c steps).parsed_result.is_final_answer = true ∨
       (observe invoke cfg c steps).parsed_result.needs_retry = true) ∧
    (∀ (retrieve : RetrieveOracle) (kb q : String) (n : Nat) (e : String),
       (∀ a b m, retrieve a b m = .error e) → search retrieve kb q n = []) := by
  refine ⟨?_, ?_, ?_⟩
  · intro hashFn oO aO bO mi q hist kb kbd e st h
    unfold runReAct
    rw [h]
  · intro invoke cfg c steps
    unfold observe handleNoActionCaseObs generateContextAwareAnswer generateGeneralAnswer
      handleSearchFailureObs analyzeSearchResults createFinalResponse createErrorResponse
    rcases hfind : List.findSome? (fun s =>
        match s with
        | Step.action a => some a
        | _ => none) steps.reverse with _ | a <;>
      simp only [hfind] <;>
      repeat' split
    all_goals simp
  · intro retrieve kb q n e h
    by_cases hkb : pyStrip kb = ""
    · simp [search, hkb]
    · simp [search, hkb, h]

/-- C7 witness: the top-level handler's output at an always-raising
orchestration oracle, the Observation decision at concrete inputs, and the
search client at an always-raising transport. -/
theorem no_exception_escapes_run_witness :
    (runReAct hashZero (fun _ => .error "boom") (fun _ _ => .error "x") (fun _ _ => .error "y")
        5 "q" [] none none =
      { final_answer := "처리 중 오류가 발생했습니다: boom"
        steps := []
        total_iterations := 0
        termination_reason := "예외 발생: boom" }) ∧
    ((observe invokeEmpty cfgDemo {} []).parsed_result.is_final_answer = true ∨
      (observe invokeEmpty cfgDemo {} []).parsed_result.needs_retry = true) ∧
    (search (fun _ _ _ => .error "transport failure") "KB" "q" 3 = []) :=
  ⟨no_exception_escapes_run.1 hashZero (fun _ => .error "boom") (fun _ _ => .error "x")
      (fun _ _ => .error "y") 5 "q" [] none none "boom" (initialState 5 "q" [] none none)
      rfl,
   no_exception_escapes_run.2.1 invokeEmpty cfgDemo {} [],
   no_exception_escapes_run.2.2 (fun _ _ _ => .error "transport failure") "KB" "q" 3
      "transport failure" (fun _ _ _ => rfl)⟩

/-! ### C9: the `search_multiple_queries` contract -/

/-- Membership in the insertion step of the score-descending insertion sort. -/
theorem mem_insertByScoreDesc {y r : SearchResult} {l : List SearchResult} :
    y ∈ insertByScoreDesc r l ↔ y = r ∨ y ∈ l := by
  induction l with
  | nil => simp [insertByScoreDesc]
  | cons x xs ih =>
    unfold insertByScoreDesc
    split
    · simp
    · simp only [List.mem_cons, ih]
      tauto

/-- Insertion permutes: `insertByScoreDesc r l` is a permutation of `r :: l`. -/
theorem perm_insertByScoreDesc (r : SearchResult) (l : List SearchResult) :
    List.Perm (insertByScoreDesc r l) (r :: l) := by
  induction l with
  | nil => simp [insertByScoreDesc]
  | cons x xs ih =>
    unfold insertByScoreDesc
    split
    · exact List.Perm.refl _
    · exact List.Perm.trans (List.Perm.cons x ih) (List.Perm.swap r x xs)

/-- The score-descending sort permutes its input. -/
theorem perm_sortByScoreDesc (l : List SearchResult) : List.Perm (sortByScoreDesc l) l := by
  induction l with
  | nil => exact List.Perm.refl _
  | cons x xs ih =>
    exact List.Perm.trans (perm_insertByScoreDesc x (sortByScoreDesc xs)) (List.Perm.cons x ih)

/-- Insertion preserves the score-descending pairwise order. -/
theorem pairwise_insertByScoreDesc {r : SearchResult} : ∀ {l : List SearchResult},
    l.Pairwise (fun a b => b.score ≤ a.score) →
    (insertByScoreDesc r l).Pairwise (fun a b => b.score ≤ a.score)
  | [], _ => by simp [insertByScoreDesc]
  | x :: xs, h => by
    rw [List.pairwise_cons] at h
    obtain ⟨hx, hxs⟩ := h
    unfold insertByScoreDesc
    by_cases hxr : x.score ≤ r.score
    · rw [if_pos hxr]
      refine List.Pairwise.cons ?_ (List.Pairwise.cons hx hxs)
      intro y hy
      rcases List.mem_cons.mp hy with rfl | hy
      · exact hxr
      · exact le_trans (hx y hy) hxr
    · rw [if_neg hxr]
      refine List.Pairwise.cons ?_ (pairwise_insertByScoreDesc hxs)
      intro y hy
      rcases mem_insertByScoreDesc.mp hy with rfl | hy
      · exact le_of_lt (not_le.mp hxr)
      · exact hx y hy

/-- The output of `sortByScoreDesc` is pairwise descending by score. -/
theorem sorted_sortByScoreDesc (l : List SearchResult) :
    (sortByScoreDesc l).Pairwise (fun a b => b.score ≤ a.score) := by
  induction l with
  | nil => simp [sortByScoreDesc]
  | cons x xs ih => exact pairwise_insertByScoreDesc ih

/-- One deduplication step either keeps the accumulator unchanged (seen hash)
or appends the query-tagged result together with its fresh content hash. -/
theorem dedupStep_cases (hashFn : String → Int) (q : String)
    (acc : List SearchResult × List Int) (r : SearchResult) :
    dedupStep hashFn q acc r = acc ∨
    (dedupStep hashFn q acc r =
        (acc.1 ++ [{ r with query := q }], acc.2 ++ [hashFn (pyTake r.content 100)]) ∧
      hashFn (pyTake r.content 100) ∉ acc.2) := by
  by_cases hk : hashFn (pyTake r.content 100) ∈ acc.2
  · left
    simp [dedupStep, hk]
  · right
    refine ⟨?_, hk⟩
    simp [dedupStep, hk]

/-- Provenance of the per-query dedup fold: every element of the output list
was already in the accumulator or is a query-tagged copy of an input result. -/
theorem foldl_dedup_mem (hashFn : String → Int) (q : String) :
    ∀ (rs : List SearchResult) (acc : List SearchResult × List Int)
      (x : SearchResult), x ∈ (rs.foldl (dedupStep hashFn q) acc).1 →
      x ∈ acc.1 ∨ ∃ r ∈ rs, x = { r with query := q }
  | [], acc, x, hx => Or.inl hx
  | r :: rs, acc, x, hx => by
    rcases foldl_dedup_mem hashFn q rs (dedupStep hashFn q acc r) x hx with hacc | ⟨r2, hr2, hx2⟩
    · rcases dedupStep_cases hashFn q acc r with hsame | ⟨happ, -⟩
      · rw [hsame] at hacc
        exact Or.inl hacc
      · rw [happ] at hacc
        rcases List.mem_append.mp hacc with h1 | h2
        · exact Or.inl h1
        · right
          exact ⟨r, List.mem_cons_self r rs, by simpa using h2⟩
    · right
      exact ⟨r2, List.mem_cons_of_mem r hr2, hx2⟩

/-- The per-query dedup fold preserves the invariant that kept results have
pairwise distinct content hashes, all recorded in the seen-hash list. -/
theorem foldl_dedup_hashInv (hashFn : String → Int) (q : String) :
    ∀ (rs : List SearchResult) (acc : List SearchResult × List Int),
      (acc.1.Pairwise (fun a b => hashFn (pyTake a.content 100) ≠ hashFn (pyTake b.content 100)) ∧
        ∀ x ∈ acc.1, hashFn (pyTake x.content 100) ∈ acc.2) →
      ((rs.foldl (dedupStep hashFn q) acc).1.Pairwise
          (fun a b => hashFn (pyTake a.content 100) ≠ hashFn (pyTake b.content 100)) ∧
        ∀ x ∈ (rs.foldl (dedupStep hashFn q) acc).1,
          hashFn (pyTake x.content 100) ∈ (rs.foldl (dedupStep hashFn q) acc).2)
  | [], acc, hinv => hinv
  | r :: rs, acc, hinv => by
    refine foldl_dedup_hashInv hashFn q rs (dedupStep hashFn q acc r) ?_
    rcases dedupStep_cases hashFn q acc r with hsame | ⟨happ, hnot⟩
    · rw [hsame]
      exact hinv
    · rw [happ]
      constructor
      · rw [List.pairwise_append]
        refine ⟨hinv.1, List.pairwise_singleton _ _, ?_⟩
        intro a ha b hb
        rcases List.mem_singleton.mp hb with rfl
        intro heq
        exact hnot (heq ▸ hinv.2 a ha)
      · intro x hx
        rcases List.mem_append.mp hx with h1 | h2
        · exact List.mem_append_left _ (hinv.2 x h1)
        · rcases List.mem_singleton.mp h2 with rfl
          exact List.mem_append_right _ (List.mem_singleton_self _)

/-- The outer fold of `search_multiple_queries` over all queries preserves the
pairwise-distinct-hash invariant of the accumulated results. -/
theorem queries_fold_hashInv (retrieve : RetrieveOracle) (hashFn : String → Int)
    (kb : String) (n : Nat) :
    ∀ (queries : List String) (acc : List SearchResult × List Int),
      (acc.1.Pairwise (fun a b => hashFn (pyTake a.content 100) ≠ hashFn (pyTake b.content 100)) ∧
        ∀ x ∈ acc.1, hashFn (pyTake x.content 100) ∈ acc.2) →
      ((queries.foldl
          (fun acc query =>
            if pyStrip query = "" then acc
            else (search retrieve kb query n).foldl (dedupStep hashFn query) acc) acc).1.Pairwise
          (fun a b => hashFn (pyTake a.content 100) ≠ hashFn (pyTake b.content 100)) ∧
        ∀ x ∈ (queries.foldl
          (fun acc query =>
            if pyStrip query = "" then acc
            else (search retrieve kb query n).foldl (dedupStep hashFn query) acc) acc).1,
          hashFn (pyTake x.content 100) ∈ (queries.foldl
          (fun acc query =>
            if pyStrip query = "" then acc
            else (search retrieve kb query n).foldl (dedupStep hashFn query) acc) acc).2)
  | [], acc, hinv => hinv
  | q :: qs, acc, hinv => by
    refine queries_fold_hashInv retrieve hashFn kb n qs _ ?_
    by_cases hq : pyStrip q = ""
    · simpa [hq] using hinv
    · simpa [hq] using foldl_dedup_hashInv hashFn q (search retrieve kb q n) acc hinv

/-- Provenance across the outer fold: every accumulated result either was in
the initial accumulator or comes from `search` on one of the queries, tagged
with that query. -/
theorem queries_fold_mem (retrieve : RetrieveOracle) (hashFn : String → Int)
    (kb : String) (n : Nat) :
    ∀ (queries : List String) (acc : List SearchResult × List Int) (x : SearchResult),
      x ∈ (queries.foldl
          (fun acc query =>
            if pyStrip query = "" then acc
            else (search retrieve kb query n).foldl (dedupStep hashFn query) acc) acc).1 →
      x ∈ acc.1 ∨ ∃ q ∈ queries, ∃ r0 ∈ search retrieve kb q n, x = { r0 with query := q }
  | [], acc, x, hx => Or.inl hx
  | q :: qs, acc, x, hx => by
    rcases queries_fold_mem retrieve hashFn kb n qs _ x hx with hstep | ⟨q2, hq2, r0, hr0, hx2⟩
    · by_cases hq : pyStrip q = ""
      · simp only [hq, if_true, eq_self_iff_true] at hstep
        exact Or.inl hstep
      · simp only [hq, if_false] at hstep
        rcases foldl_dedup_mem hashFn q (search retrieve kb q n) acc x hstep with h1 | ⟨r0, hr0, hx2⟩
        · exact Or.inl h1
        · exact Or.inr ⟨q, List.mem_cons_self q qs, r0, hr0, hx2⟩
    · exact Or.inr ⟨q2, List.mem_cons_of_mem q hq2, r0, hr0, hx2⟩

/-- C9: for every knowledge base, hash function, query list and per-query
limit, `search_multiple_queries` returns at most 5 results, sorted descending
by score, with pairwise distinct first-100-character content prefixes, and
each result is a result of `search` on one of the queries, tagged with the
query that found it. -/
theorem multi_query_search_contract (retrieve : RetrieveOracle) (hashFn : String → Int)
    (kb : String) (queries : List String) (n : Nat) :
    (searchMultipleQueries retrieve hashFn kb queries n).length ≤ 5 ∧
    (searchMultipleQueries retrieve hashFn kb queries n).Pairwise
      (fun a b => b.score ≤ a.score) ∧
    (searchMultipleQueries retrieve hashFn kb queries n).Pairwise
      (fun a b => pyTake a.content 100 ≠ pyTake b.content 100) ∧
    ∀ r ∈ searchMultipleQueries retrieve hashFn kb queries n,
      r.query ∈ queries ∧
        ∃ r0 ∈ search retrieve kb r.query n, r = { r0 with query := r.query } := by
  unfold searchMultipleQueries
  have hinv := queries_fold_hashInv retrieve hashFn kb n queries ([], [])
    ⟨List.Pairwise.nil, by simp⟩
  refine ⟨?_, ?_, ?_, ?_⟩
  · exact List.length_take_le 5 _
  · exact (sorted_sortByScoreDesc _).sublist (List.take_sublist _ _)
  · have hsorted := (List.Perm.pairwise_iff (fun hab => Ne.symm hab) (perm_sortByScoreDesc _)).mpr hinv.1
    refine List.Pairwise.imp ?_ (hsorted.sublist (List.take_sublist _ _))
    intro a b hab heq
    exact hab (congrArg hashFn heq)
  · intro r hr
    have h1 : r ∈ sortByScoreDesc _ := (List.take_sublist _ _).subset hr
    have h2 := (perm_sortByScoreDesc _).subset h1
    rcases queries_fold_mem retrieve hashFn kb n queries ([], []) r h2 with h | ⟨q, hq, r0, hr0, heq⟩
    · simp at h
    · subst heq
      exact ⟨hq, r0, hr0, rfl⟩

/-! ### C4: exactness of the citation references pass -/

/-- Insertion for the marker-key sort permutes: `insertByNumAsc k l` is a
permutation of `k :: l`. -/
theorem perm_insertByNumAsc (k : String) (l : List String) :
    List.Perm (insertByNumAsc k l) (k :: l) := by
  induction l with
  | nil => simp [insertByNumAsc]
  | cons x xs ih =>
    unfold insertByNumAsc
    split
    · exact List.Perm.refl _
    · exact List.Perm.trans (List.Perm.cons x ih) (List.Perm.swap k x xs)

/-- The ascending-by-value sort of marker keys permutes its input. -/
theorem perm_sortByNumAsc (l : List String) : List.Perm (sortByNumAsc l) l := by
  induction l with
  | nil => exact List.Perm.refl _
  | cons x xs ih =>
    exact List.Perm.trans (perm_insertByNumAsc x (sortByNumAsc xs)) (List.Perm.cons x ih)

/-- Insertion preserves the ascending-by-value pairwise order of marker keys. -/
theorem pairwise_insertByNumAsc {k : String} : ∀ {l : List String},
    l.Pairwise (fun a b => digitsToNat a ≤ digitsToNat b) →
    (insertByNumAsc k l).Pairwise (fun a b => digitsToNat a ≤ digitsToNat b)
  | [], _ => by simp [insertByNumAsc]
  | x :: xs, h => by
    rw [List.pairwise_cons] at h
    obtain ⟨hx, hxs⟩ := h
    unfold insertByNumAsc
    by_cases hkx : digitsToNat k < digitsToNat x
    · rw [if_pos hkx]
      refine List.Pairwise.cons ?_ (List.Pairwise.cons hx hxs)
      intro y hy
      rcases List.mem_cons.mp hy with rfl | hy
      · exact le_of_lt hkx
      · exact le_trans (le_of_lt hkx) (hx y hy)
    · rw [if_neg hkx]
      refine List.Pairwise.cons ?_ (pairwise_insertByNumAsc hxs)
      intro y hy
      rcases List.mem_cons.mp ((perm_insertByNumAsc k xs).mem_iff.mp hy) with rfl | hy2
      · exact not_lt.mp hkx
      · exact hx y hy2

/-- The output of `sortByNumAsc` is pairwise ascending by integer value. -/
theorem sorted_sortByNumAsc (l : List String) :
    (sortByNumAsc l).Pairwise (fun a b => digitsToNat a ≤ digitsToNat b) := by
  induction l with
  | nil => simp [sortByNumAsc]
  | cons x xs ih => exact pairwise_insertByNumAsc ih

/-- The resolvable-id extraction is a sublist of the numeric values of the
marker keys it scans. -/
theorem refsIds_sublist (results : List SearchResult) :
    ∀ l : List String,
      (l.filterMap (fun k =>
        match results.find? (fun r => r.citation_id = digitsToNat k) with
        | some _ => some (digitsToNat k)
        | none => none)).Sublist (l.map digitsToNat)
  | [] => List.Sublist.refl _
  | x :: xs => by
    rw [List.filterMap_cons, List.map_cons]
    rcases hf : results.find? (fun r => r.citation_id = digitsToNat x) with _ | r <;>
      simp only [hf]
    · exact List.Sublist.cons _ (refsIds_sublist results xs)
    · exact List.Sublist.cons₂ _ (refsIds_sublist results xs)

/-- The ids of the reference entries are the numeric values of exactly those
sorted marker keys whose id resolves to a collected search result. -/
theorem refs_map_fst (answer : String) (results : List SearchResult) :
    (citationReferencesList answer results).map Prod.fst =
      (sortedCitationKeys answer).filterMap (fun k =>
        match results.find? (fun r => r.citation_id = digitsToNat k) with
        | some _ => some (digitsToNat k)
        | none => none) := by
  rw [citationReferencesList, List.map_filterMap]
  congr 1
  funext k
  rcases hf : results.find? (fun r => r.citation_id = digitsToNat k) with _ | r <;>
    simp [hf]

/-- C4 (amended): when no two distinct cited marker digit strings denote the
same number, the appended references section lists each id at most once, in
ascending order, and an id appears in it exactly when it is cited in the
answer AND some accumulated search result carries that `citation_id` —
unresolvable cited ids are silently dropped rather than listed. -/
theorem citation_references_exact (answer : String) (results : List SearchResult)
    (hnodup : (citedNums answer).Nodup) :
    ((citationReferencesList answer results).map Prod.fst).Nodup ∧
    ((citationReferencesList answer results).map Prod.fst).Pairwise (fun a b => a ≤ b) ∧
    ∀ n : Nat, n ∈ (citationReferencesList answer results).map Prod.fst ↔
      (n ∈ citedNums answer ∧ ∃ r ∈ results, r.citation_id = n) := by
  have hperm : List.Perm (sortedCitationKeys answer) (citationsUsed answer).eraseDups :=
    perm_sortByNumAsc _
  have hmapnodup : ((sortedCitationKeys answer).map digitsToNat).Nodup :=
    ((hperm.map digitsToNat).nodup_iff).mpr hnodup
  have hsorted : ((sortedCitationKeys answer).map digitsToNat).Pairwise
      (fun a b : Nat => a ≤ b) :=
    List.pairwise_map.mpr (sorted_sortByNumAsc _)
  rw [refs_map_fst]
  refine ⟨(refsIds_sublist results _).nodup hmapnodup,
    hsorted.sublist (refsIds_sublist results _), ?_⟩
  intro n
  rw [List.mem_filterMap]
  constructor
  · rintro ⟨k, hk, hgk⟩
    rcases hf : results.find? (fun r => r.citation_id = digitsToNat k) with _ | r
    · rw [hf] at hgk
      exact absurd hgk (by simp)
    · rw [hf] at hgk
      have hn : digitsToNat k = n := by simpa using hgk
      subst hn
      refine ⟨List.mem_map_of_mem digitsToNat (hperm.subset hk), r,
        List.mem_of_find?_eq_some hf, ?_⟩
      have := List.find?_some hf
      simpa using this
  · rintro ⟨hn, r, hr, hrn⟩
    rcases List.mem_map.mp hn with ⟨k, hk, hkn⟩
    subst hkn
    refine ⟨k, (hperm.mem_iff).mpr hk, ?_⟩
    have hsome : (results.find? (fun r => r.citation_id = digitsToNat k)).isSome :=
      List.find?_isSome.mpr ⟨r, hr, by simp [hrn]⟩
    rcases hf : results.find? (fun r => r.citation_id = digitsToNat k) with _ | r2
    · rw [hf] at hsome
      exact absurd hsome (by simp)
    · rw [hf]

/-- C4 witness: the reference list at a concrete answer citing [2] and [1]
against three collected results (ids 1, 2 and an uncited 7). -/
theorem citation_references_exact_witness :
    ((citedNums "답변은 [2] 및 [1] 참고").Nodup) ∧
    (((citationReferencesList "답변은 [2] 및 [1] 참고"
        [{ citation_id := 1, source := "s1", content := "c1" },
         { citation_id := 2, source := "s2", content := "c2" },
         { citation_id := 7, source := "s7", content := "c7" }]).map Prod.fst).Nodup ∧
      ((citationReferencesList "답변은 [2] 및 [1] 참고"
        [{ citation_id := 1, source := "s1", content := "c1" },
         { citation_id := 2, source := "s2", content := "c2" },
         { citation_id := 7, source := "s7", content := "c7" }]).map Prod.fst).Pairwise
        (fun a b => a ≤ b) ∧
      ∀ n : Nat, n ∈ (citationReferencesList "답변은 [2] 및 [1] 참고"
        [{ citation_id := 1, source := "s1", content := "c1" },
         { citation_id := 2, source := "s2", content := "c2" },
         { citation_id := 7, source := "s7", content := "c7" }]).map Prod.fst ↔
        (n ∈ citedNums "답변은 [2] 및 [1] 참고" ∧
          ∃ r ∈ [({ citation_id := 1, source := "s1", content := "c1" } : SearchResult),
                 { citation_id := 2, source := "s2", content := "c2" },
                 { citation_id := 7, source := "s7", content := "c7" }],
            r.citation_id = n)) :=
  ⟨by decide,
   citation_references_exact "답변은 [2] 및 [1] 참고"
     [{ citation_id := 1, source := "s1", content := "c1" },
      { citation_id := 2, source := "s2", content := "c2" },
      { citation_id := 7, source := "s7", content := "c7" }] (by decide)⟩

/-- C4 counterexample: the answer cites [2] but no accumulated result carries
citation_id 2, yet the turn still completes and the references section lists
only [1] — fewer than the cited set; and with markers [1] and [01] the
references section lists id 1 twice — a duplicate. -/
theorem citation_marker_unresolvable_and_reference_duplication :
    (2 ∈ citedNums "참고 [1] 및 [2]" ∧
      ∀ r ∈ [({ citation_id := 1, source := "S3: doc", content := "내용" } : SearchResult)],
        r.citation_id ≠ 2) ∧
    ((citationReferencesList "참고 [1] 및 [2]"
        [{ citation_id := 1, source := "S3: doc", content := "내용" }]).map Prod.fst = [1]) ∧
    ((citationReferencesList "[1] 그리고 [01]"
        [{ citation_id := 1, source := "S3: doc", content := "내용" }]).map Prod.fst = [1, 1]) := by
  decide
